import Mathlib

/-!  Shallow embedding of the AICOM finalization / policy-reconciliation core.

Source files embedded:
  * backend/app/services/extract_service.py  (reference resolution, WHT policy,
    schema lock, row finalization)
  * backend/app/extractors/wallet_mapping.py (payment-identity resolution)

Modelling conventions (stated once here):
  * Python runtime values are modelled by `PyVal`; machine floats are modelled
    as exact rationals, and the two-decimal rounding with the 1e-9 epsilon bias
    used by the code is reproduced on rationals with round-half-to-even (the
    rounding mode of Python's `round` and of `format(x, '.2f')`).
  * Python dicts are modelled as insertion-ordered association lists with a
    replace-in-place update (`rset`), exactly the observable behaviour of a
    Python dict for the operations the code uses.
  * `str.strip`, `\s`, `\w`, `\d`, `.upper()`, `.lower()` are modelled on the
    ASCII range (plus, for `\w`, all non-ASCII codepoints counted as word
    characters, which is the right call for the Thai text these documents
    carry); the code never relies on non-ASCII case mapping.
  * The regular expressions of the source are transcribed into a small
    priority-ordered backtracking engine (`RI`, `riMatch`) with Python `re`
    semantics: leftmost match, greedy quantifiers, ordered alternation, word
    boundaries.  The engine carries fuel; the fuel bound is far above what any
    of the transcribed patterns can consume, and no theorem below depends on
    the engine's internals, only on its (executable) values.
  * `os.getenv` is modelled by an explicit environment parameter
    `Env := String → Option String` threaded through the functions that read it.
-/

/-- Python runtime values as they flow through extraction rows and
configuration dictionaries.  `vint`/`vfloat` are kept apart because
`str()` renders them differently. -/
inductive PyVal where
  | vstr (s : String)
  | vnone
  | vbool (b : Bool)
  | vint (n : Int)
  | vfloat (q : Rat)
  | vlist (xs : List PyVal)
  | vdict (fs : List (String × PyVal))

/-- A Python `dict` used as a row or a configuration object: an
insertion-ordered association list. -/
abbrev Row := List (String × PyVal)

/-- Configuration dictionaries share the representation of rows. -/
abbrev Cfg := List (String × PyVal)

/-- The process environment (`os.getenv`). -/
abbrev Env := String → Option String

/-- Model of `os.getenv(key, default)`. -/
def getenvD (env : Env) (k d : String) : String := (env k).getD d

/-- Python whitespace for `str.strip` and `\s` (ASCII range). -/
def isPyWs (c : Char) : Bool :=
  c == ' ' || c == '\t' || c == '\n' || c == '\r' || c.val == 11 || c.val == 12

/-- Strip helper on character lists. -/
def stripChars (l : List Char) : List Char :=
  ((l.dropWhile (fun c => isPyWs c)).reverse.dropWhile (fun c => isPyWs c)).reverse

/-- Model of Python `str.strip()`. -/
def pystrip (s : String) : String := String.mk (stripChars s.data)

/-- ASCII uppercase of a string, modelling `.upper()` on the inputs at hand. -/
def upperStr (s : String) : String := String.mk (s.data.map Char.toUpper)

/-- ASCII lowercase of a string, modelling `.lower()` on the inputs at hand. -/
def lowerStr (s : String) : String := String.mk (s.data.map Char.toLower)

/-- Python truthiness (`bool(v)`) for the values that occur here. -/
def pyTruthy : PyVal → Bool
  | .vstr s => s ≠ ""
  | .vnone => false
  | .vbool b => b
  | .vint n => n ≠ 0
  | .vfloat q => q ≠ 0
  | .vlist xs => !xs.isEmpty
  | .vdict fs => !fs.isEmpty

/-- Python `a or b`. -/
def pyOr (a b : PyVal) : PyVal := if pyTruthy a then a else b

/-- Integer decimal rendering, as Python renders an `int`. -/
def intRepr (n : Int) : String := toString n

/-- Least `k ≤ 30` such that `q * 10^k` is an integer, if any: the
terminating-decimal test used to render rationals the way Python renders
the float literals they model. -/
def decExp (q : Rat) : Option Nat :=
  (List.range 31).find? (fun k => (q * (10 : Rat) ^ k).den == 1)

/-- Decimal digits of a natural number, zero-padded to `w`. -/
def padNat (w : Nat) (n : Nat) : String :=
  let s := toString n
  String.mk (List.replicate (w - s.length) '0') ++ s

/-- Render a rational that models a float, the way Python `str`/`repr`
renders the float (exact for the terminating decimals that actually occur;
a non-terminating rational, which models no float, falls back to the
fraction). -/
def floatRepr (q : Rat) : String :=
  match decExp q with
  | some 0 => intRepr q.num ++ ".0"
  | some k =>
      let scaled : Int := (q * (10 : Rat) ^ k).num
      let sgn := if scaled < 0 then "-" else ""
      let a := scaled.natAbs
      let ip := a / 10 ^ k
      let fp := a % 10 ^ k
      let frac := padNat k fp
      let fracTrim := String.mk (frac.data.reverse.dropWhile (· == '0')).reverse
      sgn ++ toString ip ++ "." ++ (if fracTrim = "" then "0" else fracTrim)
  | none => toString q.num ++ "/" ++ toString q.den

mutual
/-- Model of Python `str(v)`. -/
def pyStr : PyVal → String
  | .vstr s => s
  | .vnone => "None"
  | .vbool b => if b then "True" else "False"
  | .vint n => intRepr n
  | .vfloat q => floatRepr q
  | .vlist xs => "[" ++ String.intercalate ", " (pyReprList xs) ++ "]"
  | .vdict fs => "\x7b" ++ String.intercalate ", " (pyReprFields fs) ++ "\x7d"

/-- Model of Python `repr(v)` (string escaping inside quotes is not
reproduced; no embedded code path depends on it). -/
def pyRepr : PyVal → String
  | .vstr s => "'" ++ s ++ "'"
  | .vnone => "None"
  | .vbool b => if b then "True" else "False"
  | .vint n => intRepr n
  | .vfloat q => floatRepr q
  | .vlist xs => "[" ++ String.intercalate ", " (pyReprList xs) ++ "]"
  | .vdict fs => "\x7b" ++ String.intercalate ", " (pyReprFields fs) ++ "\x7d"

def pyReprList : List PyVal → List String
  | [] => []
  | x :: t => pyRepr x :: pyReprList t

def pyReprFields : List (String × PyVal) → List String
  | [] => []
  | (k, v) :: t => ("'" ++ k ++ "': " ++ pyRepr v) :: pyReprFields t
end

/-- Dict read: `d.get(k)` (absent key gives `None`, modelled as `none`). -/
def rget? : Row → String → Option PyVal
  | [], _ => none
  | p :: t, k => if p.1 = k then some p.2 else rget? t k

/-- Dict read with default: `d.get(k, dflt)`. -/
def rgetD (r : Row) (k : String) (d : PyVal) : PyVal := (rget? r k).getD d

/-- Dict read where the Python code relies on `.get(k)` returning `None`. -/
def rgetN (r : Row) (k : String) : PyVal := rgetD r k .vnone

/-- Membership test: `k in d`. -/
def rhas (r : Row) (k : String) : Bool := (rget? r k).isSome

/-- Dict write `d[k] = v`: replace in place if the key exists, else append. -/
def rset : Row → String → PyVal → Row
  | [], k, v => [(k, v)]
  | p :: t, k, v => if p.1 = k then (k, v) :: t else p :: rset t k v

/-- Dict keys, in order. -/
def rkeys (r : Row) : List String := r.map (·.1)

/-- `d.setdefault(k, v)`. -/
def rsetdefault (r : Row) (k : String) (v : PyVal) : Row :=
  if rhas r k then r else r ++ [(k, v)]

/-- The ubiquitous idiom `str(row.get(k) or "")`. -/
def getStrOr (r : Row) (k : String) : String := pyStr (pyOr (rgetN r k) (.vstr ""))

/-- The idiom `str(row.get(k) or "").strip()`. -/
def getStrOrStrip (r : Row) (k : String) : String := pystrip (getStrOr r k)

theorem rget?_rset (r : Row) (k : String) (v : PyVal) (k' : String) :
    rget? (rset r k v) k' = if k' = k then some v else rget? r k' := by
  induction r with
  | nil =>
    simp only [rset, rget?]
    by_cases h : k' = k
    · subst h; simp
    · rw [if_neg (fun hh : k = k' => h hh.symm), if_neg h]
  | cons p t ih =>
    simp only [rset]
    by_cases hpk : p.1 = k
    · rw [if_pos hpk]
      simp only [rget?]
      by_cases h : k' = k
      · subst h; simp
      · rw [if_neg (fun hh : k = k' => h hh.symm), if_neg h,
          if_neg (fun hh : p.1 = k' => h ((hpk.symm.trans hh).symm))]
    · rw [if_neg hpk]
      simp only [rget?]
      by_cases hp' : p.1 = k'
      · rw [if_pos hp', if_neg (fun hh : k' = k => hpk (hp'.trans hh)), if_pos hp']
      · rw [if_neg hp', ih]
        by_cases h : k' = k
        · rw [if_pos h, if_pos h]
        · rw [if_neg h, if_neg h, if_neg hp']

theorem rget?_rset_self (r : Row) (k : String) (v : PyVal) :
    rget? (rset r k v) k = some v := by simp [rget?_rset]

theorem rget?_rset_ne (r : Row) (k : String) (v : PyVal) (k' : String)
    (h : k' ≠ k) : rget? (rset r k v) k' = rget? r k' := by
  simp [rget?_rset, h]

theorem mem_rkeys_rset (r : Row) (k : String) (v : PyVal) (k' : String) :
    k' ∈ rkeys (rset r k v) ↔ k' ∈ rkeys r ∨ k' = k := by
  induction r with
  | nil => simp [rset, rkeys]
  | cons p t ih =>
    simp only [rset]
    by_cases hpk : p.1 = k
    · rw [if_pos hpk]
      simp only [rkeys, List.map_cons, List.mem_cons]
      subst hpk
      rw [show List.map Prod.fst t = rkeys t from rfl]
      tauto
    · rw [if_neg hpk]
      simp only [rkeys, List.map_cons, List.mem_cons]
      rw [show List.map Prod.fst (rset t k v) = rkeys (rset t k v) from rfl,
        show List.map Prod.fst t = rkeys t from rfl, ih]
      tauto

theorem rget?_append_one (r : Row) (k : String) (v : PyVal) (k' : String)
    (h : k' ≠ k) : rget? (r ++ [(k, v)]) k' = rget? r k' := by
  induction r with
  | nil =>
    simp only [List.nil_append, rget?]
    rw [if_neg (fun hh : k = k' => h hh.symm)]
  | cons p t ih =>
    simp only [List.cons_append, rget?]
    split
    · rfl
    · exact ih

theorem rget?_rsetdefault_ne (r : Row) (k : String) (v : PyVal) (k' : String)
    (h : k' ≠ k) : rget? (rsetdefault r k v) k' = rget? r k' := by
  unfold rsetdefault
  split
  · rfl
  · exact rget?_append_one r k v k' h

/-- Value of a list of decimal digit characters. -/
def digitsVal (l : List Char) : Nat :=
  l.foldl (fun a c => a * 10 + (c.toNat - 48)) 0

/-- Model of Python `float(string)` for the decimal forms that occur in these
documents: optional sign, integer/fraction digits, optional exponent
(`inf`, `nan` and digit-group underscores are treated as parse failures;
the code paths below turn any failure into `0.0` or a caught exception). -/
def parseFloat? (s : String) : Option Rat :=
  let l := stripChars s.data
  let sgnIp : Rat × List Char :=
    match l with
    | '+' :: t => (1, t)
    | '-' :: t => (-1, t)
    | t => (1, t)
  let sgn := sgnIp.1
  let l1 := sgnIp.2
  let ip := l1.takeWhile Char.isDigit
  let l2 := l1.dropWhile Char.isDigit
  let fpRest : List Char × List Char :=
    match l2 with
    | '.' :: t => (t.takeWhile Char.isDigit, t.dropWhile Char.isDigit)
    | t => ([], t)
  let fp := fpRest.1
  let l3 := fpRest.2
  if ip.isEmpty && fp.isEmpty then none
  else
    let mant : Rat := (digitsVal ip : Rat) + (digitsVal fp : Rat) / (10 : Rat) ^ fp.length
    match l3 with
    | [] => some (sgn * mant)
    | e :: t =>
      if e == 'e' || e == 'E' then
        let esgnT : Int × List Char :=
          match t with
          | '+' :: t2 => (1, t2)
          | '-' :: t2 => (-1, t2)
          | t2 => (1, t2)
        let ed := esgnT.2.takeWhile Char.isDigit
        if ed.isEmpty || !(esgnT.2.dropWhile Char.isDigit).isEmpty then none
        else some (sgn * mant * (10 : Rat) ^ (esgnT.1 * (digitsVal ed : Int)))
      else none

/-- Model of Python `float(v)` on a runtime value: numbers and booleans
convert, strings parse (or raise, modelled as `none`), everything else
raises. -/
def pyFloatFn : PyVal → Option Rat
  | .vint n => some (n : Rat)
  | .vfloat q => some q
  | .vbool b => some (if b then 1 else 0)
  | .vstr s => parseFloat? s
  | _ => none

/-- `_to_float` of extract_service.py: `None` and unparseable values become
`0.0`; commas are stripped before parsing. -/
def _to_float (v : PyVal) : Rat :=
  match v with
  | .vnone => 0
  | .vint n => (n : Rat)
  | .vfloat q => q
  | .vbool b => if b then 1 else 0
  | _ =>
    let s := pystrip (pyStr v)
    if s = "" then 0
    else (parseFloat? (String.mk (s.data.filter (fun c => !(c == ','))))).getD 0

/-- Round-half-to-even on rationals: the rounding of Python's `round` and of
`format(x, '.2f')`. -/
def roundHalfEven (q : Rat) : Int :=
  let f := ⌊q⌋
  let r := q - (f : Rat)
  if r < 1/2 then f
  else if 1/2 < r then f + 1
  else if f % 2 = 0 then f else f + 1

/-- The epsilon bias `1e-9` the code adds before two-decimal rounding. -/
def eps9 : Rat := 1 / 1000000000

/-- Python `round(x, 2)` on the rational model. -/
def pyRound2 (x : Rat) : Rat := (roundHalfEven (x * 100) : Rat) / 100

/-- Fixed-point rendering `f"{x:.pf}"`. -/
def fmtFixed (p : Nat) (q : Rat) : String :=
  let n := roundHalfEven (q * (10 : Rat) ^ p)
  let sgn := if q < 0 then "-" else ""
  let a := n.natAbs
  sgn ++ toString (a / 10 ^ p) ++ (if p = 0 then "" else "." ++ padNat p (a % 10 ^ p))

/-- `_fmt_2` of extract_service.py (`f"{float(v):.2f}"`; the `except` branch
is unreachable in the model because the argument is already numeric). -/
def _fmt_2 (q : Rat) : String := fmtFixed 2 q

/-- Four-decimal rendering used for the diagnostic rate fields. -/
def fmt4 (q : Rat) : String := fmtFixed 4 q

/-- `_truthy` of extract_service.py: `None` is false, booleans pass through,
anything else is compared, lowercased and stripped, against the literal
"true" strings (the "false" strings and the fallthrough both return false,
so the two branches collapse). -/
def _truthy (v : PyVal) : Bool :=
  match v with
  | .vnone => false
  | .vbool b => b
  | _ =>
    let s := lowerStr (pystrip (pyStr v))
    ["1", "true", "yes", "y", "on", "enable", "enabled", "✅"].contains s

/-- `_parse_vat_rate` of extract_service.py. -/
def _parse_vat_rate (v : PyVal) : Rat :=
  match v with
  | .vnone => 0
  | _ =>
    let s := upperStr (pystrip (pyStr v))
    if s = "" then 0
    else if ["NO", "NONE", "0", "0%", "EXEMPT"].contains s then 0
    else if s.endsWith "%" then _to_float (.vstr (s.dropRight 1)) / 100
    else
      let x := _to_float (.vstr s)
      if x > 1 then x / 100 else x

/-- Arguments of functions typed `Dict` in Python may in fact receive any
value; `_sanitize_incoming_row` keeps dicts and replaces anything else by
the empty dict. -/
inductive RowInput where
  | dict (r : Row)
  | nondict

/-- `_sanitize_incoming_row` of extract_service.py. -/
def _sanitize_incoming_row : RowInput → Row
  | .dict r => r
  | .nondict => []

/-- Items of the transcribed regular expressions: literals (case-sensitive
or case-insensitive), greedy character-class repeats, ordered alternation,
word boundaries, and capture-position markers. -/
inductive RI where
  | lit (ci : Bool) (s : List Char)
  | cls (p : Char → Bool) (lo : Nat) (hi : Option Nat)
  | clsFix (p : Char → Bool) (n : Nat)
  | alts (cs : List (List RI))
  | bnd
  | mark

/-- Character at an absolute position. -/
def charAt? (s : List Char) (i : Nat) : Option Char := s.get? i

/-- Does the literal match at position `i` (optionally case-insensitively)? -/
def litMatchAt (ci : Bool) : List Char → List Char → Nat → Bool
  | [], _, _ => true
  | c :: t, s, i =>
    match charAt? s i with
    | some d => (if ci then d.toLower == c.toLower else d == c) && litMatchAt ci t s (i + 1)
    | none => false

/-- Length of the maximal run of class characters starting at `i`. -/
def runLen (p : Char → Bool) (s : List Char) (i : Nat) : Nat :=
  ((s.drop i).takeWhile p).length

/-- Python `\w` (ASCII word characters, with every non-ASCII codepoint
counted as a word character — the right approximation for the Thai text
these patterns meet). -/
def isPyWord (c : Char) : Bool := c.isAlphanum || c == '_' || c.val > 127

/-- Word-boundary test `\b` at position `i`. -/
def wordB (s : List Char) (i : Nat) : Bool :=
  let a := if i = 0 then false else (charAt? s (i - 1)).elim false isPyWord
  let b := (charAt? s i).elim false isPyWord
  a != b

/-- Greedy repeat counts, highest first. -/
def countsDesc (lo maxT : Nat) : List Nat :=
  (List.range (maxT - lo + 1)).map (fun j => maxT - j)

/-- Backtracking matcher with Python `re` semantics: priority-ordered
alternation, greedy repeats (expanded into an ordered alternation of exact
counts), word boundaries and capture markers.  Returns the match end and
the marker positions.  The fuel only bounds the backtracking depth; it is
far beyond what the transcribed patterns can consume. -/
def riRun : Nat → List RI → List Char → Nat → Option (Nat × List Nat)
  | 0, _, _, _ => none
  | _ + 1, [], _, i => some (i, [])
  | fuel + 1, it :: rest, s, i =>
    match it with
    | .lit ci pat =>
      if litMatchAt ci pat s i then riRun fuel rest s (i + pat.length) else none
    | .clsFix p n =>
      if n ≤ runLen p s i then riRun fuel rest s (i + n) else none
    | .cls p lo hi =>
      let m := runLen p s i
      let maxT := match hi with | none => m | some h => min m h
      if maxT < lo then none
      else riRun fuel (.alts ((countsDesc lo maxT).map (fun n => [.clsFix p n])) :: rest) s i
    | .alts cs =>
      match cs with
      | [] => none
      | c :: more =>
        match riRun fuel (c ++ rest) s i with
        | some r => some r
        | none => riRun fuel (.alts more :: rest) s i
    | .bnd => if wordB s i then riRun fuel rest s i else none
    | .mark => (riRun fuel rest s i).map (fun r => (r.1, i :: r.2))

/-- Fuel bound for one anchored match attempt. -/
def riFuel : Nat := 1000000

/-- Leftmost search: try each start position in turn (Python `re.search`). -/
def riSearchFrom (pat : List RI) (s : List Char) : Nat → Nat → Option (Nat × Nat × List Nat)
  | 0, _ => none
  | tries + 1, i =>
    match riRun riFuel pat s i with
    | some (e, ms) => some (i, e, ms)
    | none => riSearchFrom pat s tries (i + 1)

/-- Python `re.search` on the pattern: start, end and marker positions of
the leftmost match. -/
def riSearch (pat : List RI) (s : List Char) : Option (Nat × Nat × List Nat) :=
  riSearchFrom pat s (s.length + 1) 0

/-- Python `pattern.match`: anchored at position 0. -/
def riMatch0 (pat : List RI) (s : List Char) : Option (Nat × List Nat) :=
  riRun riFuel pat s 0

/-- Python `re.finditer`: non-overlapping matches, left to right. -/
def riFindAllFrom (pat : List RI) (s : List Char) : Nat → Nat → List (Nat × Nat × List Nat)
  | 0, _ => []
  | tries + 1, i =>
    if i > s.length then []
    else
      match riRun riFuel pat s i with
      | some (e, ms) => (i, e, ms) :: riFindAllFrom pat s tries (max e (i + 1))
      | none => riFindAllFrom pat s tries (i + 1)

/-- All matches of the pattern (Python `finditer`). -/
def riFindAll (pat : List RI) (s : List Char) : List (Nat × Nat × List Nat) :=
  riFindAllFrom pat s (s.length + 1) 0

/-- Substring of a character list by absolute positions. -/
def subList (s : List Char) (a b : Nat) : List Char := (s.drop a).take (b - a)

/-- First capture group of a match result (first pair of marker positions). -/
def cap1Of (s : List Char) (r : Nat × Nat × List Nat) : List Char :=
  match r.2.2 with
  | a :: b :: _ => subList s a b
  | _ => []

/-- Second capture group of a match result. -/
def cap2Of (s : List Char) (r : Nat × Nat × List Nat) : List Char :=
  match r.2.2 with
  | _ :: _ :: a :: b :: _ => subList s a b
  | _ => []

/-- Third capture group of a match result. -/
def cap3Of (s : List Char) (r : Nat × Nat × List Nat) : List Char :=
  match r.2.2 with
  | _ :: _ :: _ :: _ :: a :: b :: _ => subList s a b
  | _ => []

/-- `\s*` as a regex item. -/
def wsStar : RI := .cls (fun c => isPyWs c) 0 none

/-- Case-insensitive literal item from a string. -/
def li (s : String) : RI := .lit true s.data

/-- Case-sensitive literal item from a string. -/
def le (s : String) : RI := .lit false s.data

/-- The reference-core character class `[A-Z0-9\-_/.]` under `IGNORECASE`. -/
def isRefChar (c : Char) : Bool :=
  c.isAlpha || c.isDigit || c == '-' || c == '_' || c == '/' || c == '.'

/-- `RE_TRS_CORE`: `(TRS[A-Z0-9\-_/.]{10,})`, IGNORECASE. -/
def RE_TRS_CORE : List RI := [.mark, li "TRS", .cls isRefChar 10 none, .mark]

/-- `RE_RCS_CORE`: `(RCS[A-Z0-9\-_/.]{10,})`, IGNORECASE. -/
def RE_RCS_CORE : List RI := [.mark, li "RCS", .cls isRefChar 10 none, .mark]

/-- `RE_TTSTH_CORE`: `(TTSTH\d{8,})`, IGNORECASE. -/
def RE_TTSTH_CORE : List RI := [.mark, li "TTSTH", .cls Char.isDigit 8 none, .mark]

/-- `RE_LAZ_INVOICE`: `\b(THMPTI\d{10,})\b`, IGNORECASE. -/
def RE_LAZ_INVOICE : List RI :=
  [.bnd, .mark, li "THMPTI", .cls Char.isDigit 10 none, .mark, .bnd]

/-- Hexadecimal digit under IGNORECASE (`[a-f0-9]`). -/
def isHexCI (c : Char) : Bool :=
  c.isDigit || ('a' ≤ c && c ≤ 'f') || ('A' ≤ c && c ≤ 'F')

/-- `RE_INVNO_BLOCK`:
`(?:Invoice\s*No\.?|Tax\s*Invoice\s*/\s*Receipt|Receipt\s*No\.?)\s*[:：]?\s*([A-Z0-9\-_/.]{8,})`. -/
def RE_INVNO_BLOCK : List RI :=
  [.alts
      [[li "Invoice", wsStar, li "No", .cls (fun c => c == '.') 0 (some 1)],
       [li "Tax", wsStar, li "Invoice", wsStar, le "/", wsStar, li "Receipt"],
       [li "Receipt", wsStar, li "No", .cls (fun c => c == '.') 0 (some 1)]],
    wsStar, .cls (fun c => c == ':' || c == '：') 0 (some 1), wsStar,
    .mark, .cls isRefChar 8 none, .mark]

/-- `_strip_ext`: removes one trailing `.pdf/.png/.jpg/.jpeg/.xlsx/.xls`
(the `$`-anchored pattern can match only at the very end, hence at most
once) and strips.  The suffix test is case-insensitive. -/
def _strip_ext (s : String) : String :=
  let low := lowerStr s
  match [".pdf", ".png", ".jpg", ".jpeg", ".xlsx", ".xls"].find?
      (fun e => low.endsWith e) with
  | some e => pystrip (String.mk (s.data.take (s.data.length - e.length)))
  | none => pystrip s

/-- Core of `_compact_no_ws`: strip, and if anything remains remove every
whitespace character (`_RE_ALL_WS.sub("", s)`). -/
def compactStr (s : String) : String :=
  let t := pystrip s
  if t = "" then "" else String.mk (t.data.filter (fun c => !isPyWs c))

/-- `_compact_no_ws` of extract_service.py. -/
def _compact_no_ws (v : PyVal) : String :=
  compactStr (match v with | .vnone => "" | w => pyStr w)

/-- One application of `RE_LEADING_NOISE_PREFIX.sub("", s)`: every
alternative is `^`-anchored, so `re.sub` can replace at most once, removing
the highest-priority alternative that matches at the start (all of them
case-insensitive). -/
def noiseStrip (s : String) : String :=
  let d := s.data
  let sw := fun (p : String) => litMatchAt true p.data d 0
  let dr := fun (n : Nat) => String.mk (d.drop n)
  if sw "Shopee-TIV-" || sw "Shopee-TIR-" then dr 11
  else if sw "TIV-" || sw "TIR-" then dr 4
  else if sw "Shopee-" then dr 7
  else if sw "SPX-" then dr 4
  else if sw "LAZ-" then dr 4
  else if sw "LZD-" then dr 4
  else if sw "TikTok-" then dr 7
  else s

/-- The ordered core-pattern search of `_normalize_reference_core`
(`for pat in (RE_TRS_CORE, RE_RCS_CORE, RE_TTSTH_CORE, RE_LAZ_INVOICE)`). -/
def coreSearch (s : List Char) : Option (List Char) :=
  match riSearch RE_TRS_CORE s with
  | some r => some (cap1Of s r)
  | none =>
    match riSearch RE_RCS_CORE s with
    | some r => some (cap1Of s r)
    | none =>
      match riSearch RE_TTSTH_CORE s with
      | some r => some (cap1Of s r)
      | none =>
        match riSearch RE_LAZ_INVOICE s with
        | some r => some (cap1Of s r)
        | none => none

/-- `_normalize_reference_core` of extract_service.py, before its final
`_compact_no_ws` call: `none` models the early `""` return on a blank
input; every other branch of the source ends in `_compact_no_ws` of the
string returned here. -/
def _normalize_ref_pre (v : PyVal) : Option String :=
  let s := _compact_no_ws v
  if s = "" then none
  else
    let s := _strip_ext s
    match coreSearch s.data with
    | some g => some (String.mk g)
    | none =>
      let s2 := pystrip (noiseStrip s)
      let s2 := _strip_ext s2
      if s2 ≠ "" then some s2 else some s

/-- `_normalize_reference_core` of extract_service.py. -/
def _normalize_reference_core (v : PyVal) : String :=
  match _normalize_ref_pre v with
  | none => ""
  | some u => compactStr u

/-- Order-preserving de-duplication that also drops empty strings
(the `if x and x not in seen` loops of the source). -/
def dedupKeepAux : List String → List String → List String
  | _, [] => []
  | seen, x :: t =>
    if x = "" ∨ x ∈ seen then dedupKeepAux seen t
    else x :: dedupKeepAux (x :: seen) t

/-- `_extract_reference_candidates_from_text` of extract_service.py. -/
def _extract_reference_candidates_from_text (text : String) : List String :=
  if text = "" then []
  else
    let d := text.data
    let norm := fun (r : Nat × Nat × List Nat) =>
      _normalize_reference_core (.vstr (String.mk (cap1Of d r)))
    let out :=
      (riFindAll RE_LAZ_INVOICE d).map norm
      ++ (riFindAll RE_INVNO_BLOCK d).map norm
      ++ (riFindAll RE_TRS_CORE d).map norm
      ++ (riFindAll RE_RCS_CORE d).map norm
      ++ (riFindAll RE_TTSTH_CORE d).map norm
    dedupKeepAux [] out

/-- `_is_probably_hash`: a stripped 32-character lowercase-hex
(IGNORECASE) string, i.e. an md5-like file hash. -/
def _is_probably_hash (s : String) : Bool :=
  let t := pystrip s
  t.length == 32 && t.data.all isHexCI

/-- `_score_reference` of extract_service.py. -/
def _score_reference (platform ref : String) : Nat :=
  let p := pystrip (upperStr platform)
  let r := pystrip ref
  if r = "" then 0
  else if _is_probably_hash r then 5
  else if (riMatch0 RE_TRS_CORE r.data).isSome then 100
  else if (riMatch0 RE_RCS_CORE r.data).isSome then 95
  else if (riMatch0 RE_TTSTH_CORE r.data).isSome then 85
  else if (riMatch0 RE_LAZ_INVOICE r.data).isSome then 90
  else if p = "LAZADA" && (upperStr r).startsWith "TH" && r.length ≥ 12 then 80
  else if r.length ≥ 10 && r.data.all isRefChar then 60
  else 30

/-- The de-duplicated candidate list built inside `_pick_best_reference`
(steps 1–3 plus the dedup loop of the source). -/
def _pick_candidates (src_file : String) (row : Row) (text : String) : List String :=
  let r_c := _normalize_reference_core (rgetD row "C_reference" (.vstr ""))
  let r_g := _normalize_reference_core (rgetD row "G_invoice_no" (.vstr ""))
  let cands :=
    (if r_g ≠ "" then [r_g] else [])
    ++ (if r_c ≠ "" then [r_c] else [])
    ++ _extract_reference_candidates_from_text text
    ++ (if src_file ≠ "" then
          (let f := _normalize_reference_core (.vstr src_file)
           if f ≠ "" then [f] else [])
        else [])
  dedupKeepAux [] (cands.map pystrip)

/-- The max-score selection loop (`best`/`best_score`; ties keep the
earlier candidate). -/
def bestByScore (p : String) : String → List String → String
  | b, [] => b
  | b, x :: t =>
    if _score_reference p x > _score_reference p b then bestByScore p x t
    else bestByScore p b t

/-- The selection phase of `_pick_best_reference`: the score maximum over
the de-duplicated candidates, the hash override (`if ref and not
_is_probably_hash(ref)`), and the final whitespace compaction. -/
def _select_best_reference (p : String) : List String → String
  | [] => ""
  | b0 :: restU =>
    let best := bestByScore p b0 restU
    let best :=
      if _is_probably_hash best then
        match (b0 :: restU).find? (fun x => x ≠ "" && !(_is_probably_hash x)) with
        | some y => y
        | none => best
      else best
    compactStr best

/-- `_pick_best_reference` of extract_service.py. -/
def _pick_best_reference (platform src_file : String) (row : Row) (text : String) : String :=
  let p := pystrip (upperStr platform)
  _select_best_reference p (_pick_candidates src_file row text)

/-- `RE_WHT_TH` of extract_service.py (Thai withholding phrase, a bounded
non-digit gap, a 1–2 digit percentage with optional fraction, `%`, another
bounded gap, and the monetary amount). -/
def RE_WHT_TH : List RI :=
  [.alts
      [[le "หักภาษี", wsStar, le "ณ", wsStar, le "ที่จ่าย"],
       [le "ภาษีหัก", wsStar, le "ณ", wsStar, le "ที่จ่าย"]],
    .cls (fun c => !(c.isDigit || c == '%')) 0 (some 40),
    .mark, .cls Char.isDigit 1 (some 2),
    .alts [[le ".", .cls Char.isDigit 1 none], []], .mark,
    wsStar, le "%",
    .cls (fun c => !c.isDigit) 0 (some 40),
    .mark,
    .alts
      [[.cls (fun c => c.isDigit || c == ',') 1 none, le ".", .cls Char.isDigit 2 (some 2)],
       [.cls Char.isDigit 1 none]],
    .mark]

/-- `RE_WHT_EN` of extract_service.py. -/
def RE_WHT_EN : List RI :=
  [li "withholding", wsStar, li "tax",
    .cls (fun c => !(c.isDigit || c == '%')) 0 (some 40),
    .mark, .cls Char.isDigit 1 (some 2),
    .alts [[le ".", .cls Char.isDigit 1 none], []], .mark,
    wsStar, le "%",
    .cls (fun c => !c.isDigit) 0 (some 40),
    .mark,
    .alts
      [[.cls (fun c => c.isDigit || c == ',') 1 none, le ".", .cls Char.isDigit 2 (some 2)],
       [.cls Char.isDigit 1 none]],
    .mark]

/-- `_extract_wht_from_text`: returns `(rate, amount)`. -/
def _extract_wht_from_text (text : String) : Rat × Rat :=
  if text = "" then (0, 0)
  else
    let d := text.data
    match riSearch RE_WHT_TH d with
    | some r =>
      (_to_float (.vstr (String.mk (cap1Of d r))) / 100,
       _to_float (.vstr (String.mk (cap2Of d r))))
    | none =>
      match riSearch RE_WHT_EN d with
      | some r =>
        (_to_float (.vstr (String.mk (cap1Of d r))) / 100,
         _to_float (.vstr (String.mk (cap2Of d r))))
      | none => (0, 0)

/-- `calculate_wht` flag: `cfg.get("calculate_wht", cfg.get("wht_enabled"))`
through `_truthy`. -/
def whtEnabledCalc (cfg : Cfg) : Bool :=
  _truthy (rgetD cfg "calculate_wht" (rgetN cfg "wht_enabled"))

/-- `auto_detect_wht` flag (default `"1"`). -/
def whtAutoDetect (cfg : Cfg) : Bool :=
  _truthy (rgetD cfg "auto_detect_wht" (.vstr "1"))

/-- `wht_rate`: `float(cfg.get("wht_rate", 0.03))`, any exception giving
back the 3% default. -/
def whtRate (cfg : Cfg) : Rat :=
  match rget? cfg "wht_rate" with
  | none => 3 / 100
  | some v => (pyFloatFn v).getD (3 / 100)

/-- `pnd_when_wht` filing code (default `"53"`). -/
def whtPndWhenWht (cfg : Cfg) : String :=
  let s := pystrip (pyStr (rgetD cfg "pnd_when_wht" (.vstr "53")))
  if s = "" then "53" else s

/-- `pnd_when_no_wht` filing code (default `"53"`). -/
def whtPndWhenNo (cfg : Cfg) : String :=
  let s := pystrip (pyStr (rgetD cfg "pnd_when_no_wht" (.vstr "53")))
  if s = "" then "53" else s

/-- `wht_override_existing` flag (default `"0"`). -/
def whtOverride (cfg : Cfg) : Bool :=
  _truthy (rgetD cfg "wht_override_existing" (.vstr "0"))

/-- `cur_wht_s`: the current withholding field as a stripped string. -/
def whtCurS (row : Row) : String := getStrOrStrip row "P_wht"

/-- Step 1 of `_apply_wht_policy`: the gross (VAT-inclusive) amount — the
paid-amount field, falling back to the unit-price field when non-positive.
(The `_extract_amounts_summary_from_text` block of the source always raises
`NameError` — that helper exists nowhere in the repository — and the bare
`except` swallows it, so `subtotal_ex` and `vat_amt` stay `0.0`, `gross` is
left unchanged, and the two branches guarded by `subtotal_ex > 0` or
`subtotal_ex + vat_amt` are dead code; the model reflects that.) -/
def _wht_gross (row : Row) : Rat :=
  let g := _to_float (rgetN row "R_paid_amount")
  if g ≤ 0 then _to_float (rgetN row "N_unit_price") else g

/-- Steps 2–3 of `_apply_wht_policy` (text detection, then calculation
fallback): the updated row together with the resolved withholding amount
(`cur_wht` at the end of step 3). -/
def _wht_detect_calc (env : Env) (row : Row) (cfg : Cfg) (text : String) : Row × Rat :=
  let auto_detect := whtAutoDetect cfg
  let enabled_calc := whtEnabledCalc cfg
  let ovr := whtOverride cfg
  let rate_f := whtRate cfg
  let vat := _parse_vat_rate (rgetN row "O_vat_rate")
  let cur_wht := _to_float (.vstr (whtCurS row))
  let gross := _wht_gross row
  let meta := getenvD env "STORE_WHT_META" "1" == "1"
  let p1 : Row × Rat :=
    if auto_detect && (ovr || decide (cur_wht ≤ 0)) then
      let det := _extract_wht_from_text text
      if det.2 > 0 then
        let r := rset row "P_wht" (.vstr (_fmt_2 (pyRound2 (det.2 + eps9))))
        let r :=
          if meta then
            rset (rset r "_wht_detected_rate" (.vstr (fmt4 det.1)))
              "_wht_detected_amount" (.vstr (_fmt_2 det.2))
          else r
        (r, det.2)
      else (row, cur_wht)
    else (row, cur_wht)
  if enabled_calc && (ovr || decide (p1.2 ≤ 0)) then
    let base := if gross > 0 then (if vat > 0 then gross / (1 + vat) else gross) else 0
    if base > 0 then
      let w0 := base * rate_f
      let w1 := if w0 < 0 then 0 else w0
      let w := pyRound2 (w1 + eps9)
      let r := rset p1.1 "P_wht" (.vstr (_fmt_2 w))
      let r :=
        if meta then
          rset (rset r "_wht_calc_rate" (.vstr (fmt4 rate_f)))
            "_wht_calc_base_ex_vat" (.vstr (_fmt_2 (pyRound2 (base + eps9))))
        else r
      (r, w)
    else p1
  else p1

/-- `_apply_wht_policy` of extract_service.py (steps 4–5 on top of
`_wht_detect_calc`). -/
def _apply_wht_policy (env : Env) (row : Row) (cfg : Cfg) (text : String) : Row :=
  let enabled_calc := whtEnabledCalc cfg
  let pnd_when_wht := whtPndWhenWht cfg
  let pnd_when_no := whtPndWhenNo cfg
  let cur_wht_s := whtCurS row
  let gross := _wht_gross row
  let meta := getenvD env "STORE_WHT_META" "1" == "1"
  let p := _wht_detect_calc env row cfg text
  let row2 := p.1
  let cur := p.2
  if cur > 0 then
    let row3 :=
      if gross > 0 then
        let r :=
          if meta then
            rset row2 "_gross_amount_before_wht" (.vstr (_fmt_2 (pyRound2 (gross + eps9))))
          else row2
        let net0 := gross - cur
        let net := if net0 < 0 then 0 else net0
        rset r "R_paid_amount" (.vstr (_fmt_2 (pyRound2 (net + eps9))))
      else row2
    if getStrOrStrip row3 "S_pnd" = "" then rset row3 "S_pnd" (.vstr pnd_when_wht)
    else row3
  else
    let row3 :=
      if !enabled_calc && cur_wht_s = "" then rset row2 "P_wht" (.vstr "") else row2
    if getStrOrStrip row3 "S_pnd" = "" then rset row3 "S_pnd" (.vstr pnd_when_no)
    else row3

/-- `RE_DATE_ISO`: a word-bounded `20xx` year, then month and day as
two-digit groups separated by a dash-or-slash class. -/
def RE_DATE_ISO : List RI :=
  [.bnd, .mark, le "20", .cls Char.isDigit 2 (some 2), .mark,
    .cls (fun c => c == '-' || c == '/') 1 (some 1),
    .mark, .cls Char.isDigit 2 (some 2), .mark,
    .cls (fun c => c == '-' || c == '/') 1 (some 1),
    .mark, .cls Char.isDigit 2 (some 2), .mark, .bnd]

/-- `RE_DATE_THAI_LONG`: a date label (English or Thai) followed by an
optional colon and an ISO-style date. -/
def RE_DATE_THAI_LONG : List RI :=
  [.alts
      [[li "Invoice", wsStar, li "Date"],
       [le "วันที่", .alts [[le "ใบกำกับ"], [le "เอกสาร"], [le "ออกเอกสาร"]]],
       [li "Date"]],
    wsStar, .cls (fun c => c == ':' || c == '：') 0 (some 1), wsStar,
    .mark, le "20", .cls Char.isDigit 2 (some 2), .mark,
    .cls (fun c => c == '-' || c == '/') 1 (some 1),
    .mark, .cls Char.isDigit 2 (some 2), .mark,
    .cls (fun c => c == '-' || c == '/') 1 (some 1),
    .mark, .cls Char.isDigit 2 (some 2), .mark]

/-- `_yyyymmdd_from_parts` of extract_service.py (the captures are digit
strings, so the `int()` calls cannot raise). -/
def _yyyymmdd_from_parts (y m d : String) : String :=
  let yy := digitsVal y.data
  let mm := digitsVal m.data
  let dd := digitsVal d.data
  if yy < 2000 || yy > 2099 then ""
  else if mm < 1 || mm > 12 then ""
  else if dd < 1 || dd > 31 then ""
  else padNat 4 yy ++ padNat 2 mm ++ padNat 2 dd

/-- `_extract_doc_date_from_text` of extract_service.py. -/
def _extract_doc_date_from_text (text : String) : String :=
  if text = "" then ""
  else
    let d := text.data
    match riSearch RE_DATE_THAI_LONG d with
    | some r =>
      _yyyymmdd_from_parts (String.mk (cap1Of d r)) (String.mk (cap2Of d r))
        (String.mk (cap3Of d r))
    | none =>
      match riSearch RE_DATE_ISO d with
      | some r =>
        _yyyymmdd_from_parts (String.mk (cap1Of d r)) (String.mk (cap2Of d r))
          (String.mk (cap3Of d r))
      | none => ""

/-- The PEAK A–U output schema (`PEAK_KEYS_ORDER`). -/
def PEAK_KEYS_ORDER : List String :=
  ["A_seq", "A_company_name", "B_doc_date", "C_reference", "D_vendor_code",
   "E_tax_id_13", "F_branch_5", "G_invoice_no", "H_invoice_date",
   "I_tax_purchase_date", "J_price_type", "K_account", "L_description",
   "M_qty", "N_unit_price", "O_vat_rate", "P_wht", "Q_payment_method",
   "R_paid_amount", "S_pnd", "T_note", "U_group"]

/-- `_AI_BLACKLIST_KEYS`: fields no external patch may touch. -/
def _AI_BLACKLIST_KEYS : List String := ["T_note", "U_group", "K_account"]

/-- Python `v in ("", None)`. -/
def isEmptyOrNone : PyVal → Bool
  | .vstr "" => true
  | .vnone => true
  | _ => false

/-- Python `cur in ("", None, "0", "0.00")` of `_merge_rows`. -/
def isMissingLike : PyVal → Bool
  | .vstr "" => true
  | .vnone => true
  | .vstr "0" => true
  | .vstr "0.00" => true
  | _ => false

/-- `_sanitize_ai_row` of extract_service.py (the `if not ai` early return
coincides with the loop on an empty dict). -/
def _sanitize_ai_row : Row → Row
  | [] => []
  | (k, v) :: t =>
    let rest := _sanitize_ai_row t
    if k = "" then rest
    else if k ∈ _AI_BLACKLIST_KEYS then rest
    else if isEmptyOrNone v then rest
    else if k ∈ PEAK_KEYS_ORDER then (k, v) :: rest
    else if k.startsWith "_" then (k, v) :: rest
    else rest

/-- The merge loop of `_merge_rows`. -/
def mergeLoop : Row → Row → Bool → Row
  | out, [], _ => out
  | out, (k, v) :: t, fm =>
    let out2 :=
      if k = "" ∨ k ∈ _AI_BLACKLIST_KEYS then out
      else if isEmptyOrNone v then out
      else if fm then
        (if isMissingLike (rgetD out k (.vstr "")) then rset out k v else out)
      else rset out k v
    mergeLoop out2 t fm

/-- `_merge_rows` of extract_service.py. -/
def _merge_rows (base patch : Row) (fill_missing : Bool) : Row :=
  if patch.isEmpty then base else mergeLoop base patch fill_missing

/-- Body of `lock_peak_columns` on the sanitized dict: first copy the
underscore-prefixed diagnostic keys in order, then bind every PEAK key to
the input's value (or `""`). -/
def lockRow (safe : Row) : Row :=
  let out := safe.foldl
    (fun o kv => if kv.1.startsWith "_" then rset o kv.1 kv.2 else o) ([] : Row)
  PEAK_KEYS_ORDER.foldl (fun o k => rset o k (rgetD safe k (.vstr ""))) out

/-- `lock_peak_columns` of extract_service.py. -/
def lock_peak_columns (x : RowInput) : Row := lockRow (_sanitize_incoming_row x)

/-- `os.path.basename` (POSIX): everything after the last slash. -/
def pyBasename (s : String) : String :=
  String.mk ((s.data.reverse.takeWhile (fun c => !(c == '/'))).reverse)

/-- The fallback loop of `_try_get_source_filename` over row meta keys. -/
def tryMetaKeys (row : Row) : List String → String
  | [] => ""
  | k :: t =>
    let v := rgetN row k
    if pyTruthy v then pyBasename (pyStr v) else tryMetaKeys row t

/-- `_try_get_source_filename` of extract_service.py (`os.path.basename`
on a string cannot raise, so the `except` branches are dead). -/
def _try_get_source_filename (filename : String) (row : Row) : String :=
  if filename ≠ "" then pyBasename filename
  else tryMetaKeys row
    ["_filename", "filename", "source_file", "_source_file", "_file", "file"]

/-- Key-scan loop shared by `_guess_seller_id` / `_guess_username`: a
truthy value whose stripped string form is non-empty wins. -/
def guessKeyLoop (row : Row) : List String → Option String
  | [] => none
  | k :: t =>
    let v := rgetN row k
    if pyTruthy v then
      (let s := pystrip (pyStr v)
       if s ≠ "" then some s else guessKeyLoop row t)
    else guessKeyLoop row t

/-- The seller-id text pattern of `_guess_seller_id`:
`(?:seller\s*id|shop\s*id)\s*[:#]?\s*([0-9]{4,})`, IGNORECASE. -/
def RX_GUESS_SELLER : List RI :=
  [.alts [[li "seller", wsStar, li "id"], [li "shop", wsStar, li "id"]],
    wsStar, .cls (fun c => c == ':' || c == '#') 0 (some 1), wsStar,
    .mark, .cls Char.isDigit 4 none, .mark]

/-- `_guess_seller_id` of extract_service.py. -/
def _guess_seller_id (row : Row) (text : String) : String :=
  match guessKeyLoop row
      ["seller_id", "sellerId", "shop_id", "shopid", "shopId",
       "merchant_id", "merchantId"] with
  | some s => s
  | none =>
    match riSearch RX_GUESS_SELLER text.data with
    | some r => pystrip (String.mk (cap1Of text.data r))
    | none => ""

/-- The username character class `[A-Za-z0-9_.\-]`. -/
def isUnameChar (c : Char) : Bool :=
  c.isAlpha || c.isDigit || c == '_' || c == '.' || c == '-'

/-- The username text pattern of `_guess_username`:
`(?:username|user\s*name|shop\s*name)\s*[:#]?\s*([A-Za-z0-9_.\-]{3,})`. -/
def RX_GUESS_USER : List RI :=
  [.alts [[li "username"], [li "user", wsStar, li "name"],
          [li "shop", wsStar, li "name"]],
    wsStar, .cls (fun c => c == ':' || c == '#') 0 (some 1), wsStar,
    .mark, .cls isUnameChar 3 none, .mark]

/-- `_guess_username` of extract_service.py. -/
def _guess_username (row : Row) (text : String) : String :=
  match guessKeyLoop row
      ["username", "user_name", "seller_username", "shop_name", "shopName",
       "sellerName"] with
  | some s => s
  | none =>
    match riSearch RX_GUESS_USER text.data with
    | some r => pystrip (String.mk (cap1Of text.data r))
    | none => ""

/-- `PLATFORM_GROUPS` of extract_service.py. -/
def PLATFORM_GROUPS : List (String × String) :=
  [("META", "Advertising Expense"), ("GOOGLE", "Advertising Expense"),
   ("SHOPEE", "Marketplace Expense"), ("LAZADA", "Marketplace Expense"),
   ("TIKTOK", "Marketplace Expense"), ("SPX", "Marketplace Expense"),
   ("THAI_TAX", "General Expense"), ("UNKNOWN", "Other Expense"),
   ("GENERIC", "Other Expense")]

/-- `PLATFORM_DESCRIPTIONS` of extract_service.py. -/
def PLATFORM_DESCRIPTIONS : List (String × String) :=
  [("META", "Meta Ads"), ("GOOGLE", "Google Ads"),
   ("SHOPEE", "Shopee Marketplace Fee"), ("LAZADA", "Lazada Marketplace Fee"),
   ("TIKTOK", "TikTok Shop Fee"), ("SPX", "Shopee Express"),
   ("THAI_TAX", "Tax Invoice"), ("UNKNOWN", ""), ("GENERIC", "")]

/-- `_build_description_structure` of extract_service.py. -/
def _build_description_structure
    (base_desc platform seller_id username src_file : String) : String :=
  let bd0 := pystrip base_desc
  let bd :=
    if bd0 = "" then (PLATFORM_DESCRIPTIONS.lookup (upperStr platform)).getD ""
    else bd0
  let parts := if bd ≠ "" then [bd] else []
  let tags :=
    (if seller_id ≠ "" then ["SellerID=" ++ seller_id] else [])
    ++ (if username ≠ "" then ["Username=" ++ username] else [])
    ++ (if src_file ≠ "" then ["File=" ++ src_file] else [])
  let parts := parts ++ (if tags ≠ [] then [String.intercalate " | " tags] else [])
  pystrip (String.intercalate " — " (parts.filter (fun p => pystrip p ≠ "")))

/-- Is the platform one of the four marketplace routes? -/
def isMarketplace (p : String) : Bool :=
  p = "SHOPEE" || p = "LAZADA" || p = "TIKTOK" || p = "SPX"

/-- `_enforce_platform_rules` of extract_service.py. -/
def _enforce_platform_rules (row : Row) (platform : String) : Row :=
  let p := pystrip (upperStr platform)
  let row :=
    if (PLATFORM_GROUPS.lookup p).isSome && getStrOrStrip row "U_group" = "" then
      rset row "U_group" (.vstr ((PLATFORM_GROUPS.lookup p).getD ""))
    else row
  let row :=
    if getStrOrStrip row "L_description" = "" then
      (let desc := (PLATFORM_DESCRIPTIONS.lookup p).getD ""
       if desc ≠ "" then rset row "L_description" (.vstr desc) else row)
    else row
  let row :=
    if p = "META" || p = "GOOGLE" then
      (let row :=
        if getStrOrStrip row "O_vat_rate" = "" then rset row "O_vat_rate" (.vstr "NO")
        else row
       if getStrOrStrip row "J_price_type" = "" then rset row "J_price_type" (.vstr "3")
       else row)
    else if isMarketplace p then
      (let row :=
        if getStrOrStrip row "O_vat_rate" = "" then rset row "O_vat_rate" (.vstr "7%")
        else row
       if getStrOrStrip row "J_price_type" = "" then rset row "J_price_type" (.vstr "1")
       else row)
    else row
  if isMarketplace p then
    (let row := rset row "U_group" (.vstr "Marketplace Expense")
     if getStrOrStrip row "K_account" = "Marketplace Expense" then
       rset row "K_account" (.vstr "")
     else row)
  else row

/-- `CLIENT_RABBIT` (shared by extract_service.py and wallet_mapping.py). -/
def CLIENT_RABBIT : String := "0105561071873"

/-- `CLIENT_SHD`. -/
def CLIENT_SHD : String := "0105563022918"

/-- `CLIENT_TOPONE`. -/
def CLIENT_TOPONE : String := "0105565027615"

/-- `DEFAULT_COMPANY_NAME_BY_TAX` of extract_service.py. -/
def DEFAULT_COMPANY_NAME_BY_TAX : List (String × String) :=
  [(CLIENT_RABBIT, "RABBIT"), (CLIENT_SHD, "SHD"), (CLIENT_TOPONE, "TOPONE")]

/-- `CLIENT_TAX_BY_TAG` of extract_service.py. -/
def CLIENT_TAX_BY_TAG : List (String × String) :=
  [("RABBIT", CLIENT_RABBIT), ("SHD", CLIENT_SHD), ("TOPONE", CLIENT_TOPONE)]

/-- `RABBIT_WALLET_BY_SELLER_ID` of wallet_mapping.py. -/
def RABBIT_WALLET_BY_SELLER_ID : List (String × String) :=
  [("253227155", "EWL001"), ("235607098", "EWL002"), ("516516644", "EWL003"),
   ("1443909809", "EWL004"), ("1232116856", "EWL005"), ("1357179095", "EWL006"),
   ("1416156484", "EWL007"), ("418530715", "EWL008"), ("349400909", "EWL009"),
   ("142025022504068027", "EWL010")]

/-- `SHD_WALLET_BY_SELLER_ID` of wallet_mapping.py. -/
def SHD_WALLET_BY_SELLER_ID : List (String × String) :=
  [("628286975", "EWL001"), ("340395201", "EWL002"), ("383844799", "EWL003"),
   ("261472748", "EWL004"), ("517180669", "EWL005"), ("426162640", "EWL006"),
   ("231427130", "EWL007"), ("1646465545", "EWL008")]

/-- `TOPONE_WALLET_BY_SELLER_ID` of wallet_mapping.py. -/
def TOPONE_WALLET_BY_SELLER_ID : List (String × String) :=
  [("538498056", "EWL001"), ("503500831", "EWL002"),
   ("TH1K0CDIML", "EWL003"), ("TH1JSB2Z2K", "EWL004"),
   ("THLC6LWARA", "EWL005"), ("THLCTGW4XH", "EWL006")]

/-- `RABBIT_WALLET_BY_SHOP_KEYWORD` of wallet_mapping.py. -/
def RABBIT_WALLET_BY_SHOP_KEYWORD : List (String × String) :=
  [("shopee-70mai", "EWL001"), ("70mai", "EWL001"),
   ("shopee-ddpai", "EWL002"), ("ddpai", "EWL002"),
   ("shopee-jimmy", "EWL003"), ("jimmy", "EWL003"),
   ("shopee-mibro", "EWL004"), ("mibro", "EWL004"),
   ("shopee-mova", "EWL005"), ("mova", "EWL005"),
   ("shopee-toptoy", "EWL006"), ("toptoy", "EWL006"),
   ("shopee-uwant", "EWL007"), ("uwant", "EWL007"),
   ("shopee-wanbo", "EWL008"), ("wanbo", "EWL008"),
   ("shopee-zepp", "EWL009"), ("zepp", "EWL009"),
   ("rabbit", "EWL010")]

/-- `SHD_WALLET_BY_SHOP_KEYWORD` of wallet_mapping.py. -/
def SHD_WALLET_BY_SHOP_KEYWORD : List (String × String) :=
  [("shopee-ankerthailandstore", "EWL001"), ("ankerthailandstore", "EWL001"),
   ("anker", "EWL001"),
   ("shopee-dreamofficial", "EWL002"), ("dreamofficial", "EWL002"),
   ("dreame", "EWL002"),
   ("shopee-levoitofficialstore", "EWL003"), ("levoitofficialstore", "EWL003"),
   ("levoit", "EWL003"),
   ("shopee-soundcoreofficialstore", "EWL004"), ("soundcoreofficialstore", "EWL004"),
   ("soundcore", "EWL004"),
   ("xiaomismartappliances", "EWL005"),
   ("shopee-xiaomi.thailand", "EWL006"), ("xiaomi.thailand", "EWL006"),
   ("xiaomi_home_appliances", "EWL007"),
   ("shopee-nextgadget", "EWL008"), ("nextgadget", "EWL008")]

/-- `TOPONE_WALLET_BY_SHOP_KEYWORD` of wallet_mapping.py (the entries mapped
to `""` are deliberate do-not-match guards). -/
def TOPONE_WALLET_BY_SHOP_KEYWORD : List (String × String) :=
  [("shopee-vinkothailandstore", "EWL001"), ("vinkothailandstore", "EWL001"),
   ("vinko", "EWL001"),
   ("newagepetofficialstore", "EWL002"), ("new age pet", "EWL002"),
   ("newagepet", "EWL002"),
   ("lazada", ""),
   ("th1k0cdiml", "EWL003"), ("th1jsb2z2k", "EWL004"),
   ("tiktok", ""),
   ("thlc6lwara", "EWL005"), ("thlctgw4xh", "EWL006")]

/-- Thai digit (`๐`–`๙`). -/
def isThaiDigit (c : Char) : Bool := 0x0E50 ≤ c.val && c.val ≤ 0x0E59

/-- `_thai_digits_to_arabic`'s per-character translation table. -/
def thaiToArabic (c : Char) : Char :=
  if isThaiDigit c then Char.ofNat (48 + (c.val.toNat - 0x0E50)) else c

/-- `_thai_digits_to_arabic` of wallet_mapping.py. -/
def _thai_digits_to_arabic (s : String) : String := String.mk (s.data.map thaiToArabic)

theorem dropWhile_length_le {α : Type} (p : α → Bool) (l : List α) :
    (l.dropWhile p).length ≤ l.length := by
  induction l with
  | nil => simp
  | cons c t ih =>
    by_cases h : p c
    · rw [List.dropWhile_cons, if_pos h]
      exact le_trans ih (by simp)
    · rw [List.dropWhile_cons, if_neg h]

/-- Fuel-driven worker for `collapseRuns` (structural recursion on the
fuel, which starts at the input length plus one and therefore never runs
out: every step consumes at least one character). -/
def collapseRunsF : Nat → (Char → Bool) → Char → List Char → List Char
  | 0, _, _, _ => []
  | _ + 1, _, _, [] => []
  | fuel + 1, p, rep, c :: t =>
    if p c then rep :: collapseRunsF fuel p rep (t.dropWhile p)
    else c :: collapseRunsF fuel p rep t

/-- Replace each maximal run of `p`-characters by one `rep` character
(the shape of the `re.sub(class+, rep, s)` calls here). -/
def collapseRuns (p : Char → Bool) (rep : Char) (l : List Char) : List Char :=
  collapseRunsF (l.length + 1) p rep l

/-- `_norm_text` of wallet_mapping.py. -/
def _norm_text (s : String) : String :=
  let s0 := pystrip s
  if s0 = "" then ""
  else pystrip (String.mk (collapseRuns (fun c => isPyWs c) ' '
    (_thai_digits_to_arabic s0).data))

/-- `_digits_only` of wallet_mapping.py. -/
def _digits_only (s : String) : String :=
  if s = "" then ""
  else String.mk ((_thai_digits_to_arabic s).data.filter Char.isDigit)

/-- `_norm_id_loose` of wallet_mapping.py. -/
def _norm_id_loose (s : String) : String :=
  let s := _norm_text s
  if s = "" then ""
  else
    let s2 := String.mk (s.data.filter isPyWord)
    if s2 = "" then ""
    else if s2.data.all Char.isDigit then _digits_only s2
    else upperStr s2

/-- The bracket/quote class of `_norm_shop_name`. -/
def isQuoteBracket (c : Char) : Bool :=
  c == '"' || c == '\'' || c == '`' || c == '“' || c == '”' || c == '‘'
    || c == '’' || c == '(' || c == ')' || c == '[' || c == ']'
    || c.val == 123 || c.val == 125 || c == '<' || c == '>'

/-- `_norm_shop_name` of wallet_mapping.py. -/
def _norm_shop_name (shop_name : String) : String :=
  let s := lowerStr (_norm_text shop_name)
  if s = "" then ""
  else
    pystrip (String.mk (collapseRuns (fun c => isPyWs c) ' '
      (collapseRuns isQuoteBracket ' ' s.data)))

/-- `_is_valid_wallet` of wallet_mapping.py: `^EWL\d{3}$`, IGNORECASE,
matched against the stripped code. -/
def _is_valid_wallet (code : String) : Bool :=
  code ≠ "" &&
    (let t := pystrip code
     t.length == 6 && litMatchAt true "EWL".data t.data 0
       && (t.data.drop 3).all Char.isDigit)

/-- `_client_bucket` of wallet_mapping.py. -/
def _client_bucket (client_tax_id : String) : String :=
  let d := _digits_only client_tax_id
  if d = CLIENT_RABBIT then "RABBIT"
  else if d = CLIENT_SHD then "SHD"
  else if d = CLIENT_TOPONE then "TOPONE"
  else ""

/-- `_tables_for_client` of wallet_mapping.py. -/
def _tables_for_client (bucket : String) :
    List (String × String) × List (String × String) :=
  if bucket = "RABBIT" then (RABBIT_WALLET_BY_SELLER_ID, RABBIT_WALLET_BY_SHOP_KEYWORD)
  else if bucket = "SHD" then (SHD_WALLET_BY_SELLER_ID, SHD_WALLET_BY_SHOP_KEYWORD)
  else if bucket = "TOPONE" then (TOPONE_WALLET_BY_SELLER_ID, TOPONE_WALLET_BY_SHOP_KEYWORD)
  else ([], [])

/-- Stable insertion for the descending-length sort of keyword keys. -/
def insByLenDesc (x : String) : List String → List String
  | [] => [x]
  | h :: t => if h.length ≥ x.length then h :: insByLenDesc x t else x :: h :: t

/-- `sorted(keys, key=len, reverse=True)`: stable, longest first. -/
def sortByLenDesc (l : List String) : List String :=
  l.foldl (fun acc x => insByLenDesc x acc) []

/-- Substring containment (Python `k in s`). -/
def isInfixStr (n h : String) : Bool :=
  (List.range (h.data.length + 1)).any (fun i => litMatchAt false n.data h.data i)

/-- The keyword loop of `_match_shop_keyword`. -/
def matchKeyLoop (shop_norm : String) (by_shop : List (String × String)) :
    List String → String
  | [] => ""
  | k :: t =>
    let code := (by_shop.lookup k).getD ""
    if !_is_valid_wallet code then matchKeyLoop shop_norm by_shop t
    else if isInfixStr k shop_norm then code
    else matchKeyLoop shop_norm by_shop t

/-- `_match_shop_keyword` of wallet_mapping.py. -/
def _match_shop_keyword (shop_norm : String) (by_shop : List (String × String)) :
    String :=
  if shop_norm = "" || by_shop.isEmpty then ""
  else matchKeyLoop shop_norm by_shop
    (sortByLenDesc ((by_shop.map Prod.fst).filter (· ≠ "")))

/-- `_RX_SID_DIGITS` of wallet_mapping.py: a labelled digit run
(Arabic or Thai digits, with separators) of length 5–31. -/
def RX_SID_DIGITS : List RI :=
  [.bnd, .alts [[li "seller"], [li "shop"], [li "merchant"], [li "store"]],
    wsStar, .alts [[li "id"], []], wsStar,
    .cls (fun c => c == ':' || c == '#' || c == '=' || c == '-') 0 (some 1), wsStar,
    .mark, .cls (fun c => c.isDigit || isThaiDigit c) 1 (some 1),
    .cls (fun c => c.isDigit || isThaiDigit c || isPyWs c || c == ',' || c == '-') 4 (some 30),
    .mark, .bnd]

/-- `_RX_ID_TH` of wallet_mapping.py: `\b(TH[0-9A-Z]{6,})\b`, IGNORECASE. -/
def RX_ID_TH : List RI :=
  [.bnd, .mark, li "TH", .cls (fun c => c.isDigit || c.isAlpha) 6 none, .mark, .bnd]

/-- `_extract_id_from_text` of wallet_mapping.py. -/
def _extract_id_from_text (text : String) : String :=
  let t := _norm_text text
  if t = "" then ""
  else
    let d := t.data
    let first : Option String :=
      match riSearch RX_SID_DIGITS d with
      | some r =>
        let sid := _norm_id_loose (String.mk (cap1Of d r))
        if sid ≠ "" && sid.data.all Char.isDigit && sid.length ≥ 5 then some sid
        else none
      | none => none
    match first with
    | some sid => sid
    | none =>
      match riSearch RX_ID_TH d with
      | some r => _norm_id_loose (String.mk (cap1Of d r))
      | none => ""

/-- `resolve_wallet_code` of wallet_mapping.py. -/
def resolve_wallet_code (client_tax_id : String)
    (seller_id shop_name text : String) : String :=
  let bucket := _client_bucket client_tax_id
  if bucket = "" then ""
  else
    let by_id := (_tables_for_client bucket).1
    let by_shop := (_tables_for_client bucket).2
    let sid := _norm_id_loose seller_id
    let step1 : Option String :=
      if sid ≠ "" then
        (let code := (by_id.lookup sid).getD ""
         if _is_valid_wallet code then some code else none)
      else none
    match step1 with
    | some c => c
    | none =>
      let step2 : Option String :=
        if sid = "" && text ≠ "" then
          (let sid2 := _extract_id_from_text text
           if sid2 ≠ "" then
             (let code := (by_id.lookup sid2).getD ""
              if _is_valid_wallet code then some code else none)
           else none)
        else none
      match step2 with
      | some c => c
      | none =>
        let shop_norm := _norm_shop_name shop_name
        let step3 : Option String :=
          if shop_norm ≠ "" then
            (let code := _match_shop_keyword shop_norm by_shop
             if _is_valid_wallet code then some code else none)
          else none
        match step3 with
        | some c => c
        | none =>
          if text ≠ "" then
            (let code := _match_shop_keyword (_norm_shop_name text) by_shop
             if _is_valid_wallet code then code else "")
          else ""

/-- `_resolve_company_name` of extract_service.py: cfg override, then
environment override, then the default table. -/
def _resolve_company_name (env : Env) (client_tax_id : String) (cfg : Cfg) : String :=
  let fromCfg : Option String :=
    match rget? cfg "company_name_by_tax_id" with
    | some (.vdict mp) =>
      match rget? mp client_tax_id with
      | some (.vstr v) => if pystrip v ≠ "" then some (pystrip v) else none
      | _ => none
    | _ => none
  match fromCfg with
  | some v => v
  | none =>
    let ev := fun (k : String) => (env k).getD ""
    if client_tax_id = CLIENT_RABBIT && ev "COMPANY_NAME_RABBIT" ≠ "" then
      pystrip (ev "COMPANY_NAME_RABBIT")
    else if client_tax_id = CLIENT_SHD && ev "COMPANY_NAME_SHD" ≠ "" then
      pystrip (ev "COMPANY_NAME_SHD")
    else if client_tax_id = CLIENT_TOPONE && ev "COMPANY_NAME_TOPONE" ≠ "" then
      pystrip (ev "COMPANY_NAME_TOPONE")
    else (DEFAULT_COMPANY_NAME_BY_TAX.lookup client_tax_id).getD ""

/-- `_resolve_gl_code` of extract_service.py: per-company (optionally
per-bucket) cfg map, then environment override, then whatever the extractor
filled, then the expense-group label. -/
def _resolve_gl_code (env : Env) (client_tax_id platform : String)
    (row : Row) (cfg : Cfg) : String :=
  let step1 : Option String :=
    match rget? cfg "gl_code_map" with
    | some (.vdict mp) =>
      match rget? mp client_tax_id with
      | some (.vstr v) => if pystrip v ≠ "" then some (pystrip v) else none
      | some (.vdict v) =>
        let p := upperStr platform
        let bucket :=
          if p = "META" || p = "GOOGLE" then "ADS"
          else if isMarketplace p then "MARKETPLACE"
          else "DEFAULT"
        match pyOr (pyOr (rgetN v bucket) (rgetN v "DEFAULT")) (.vstr "") with
        | .vstr vv => if pystrip vv ≠ "" then some (pystrip vv) else none
        | _ => none
      | _ => none
    | _ => none
  match step1 with
  | some s => s
  | none =>
    let ev := fun (k : String) => (env k).getD ""
    if client_tax_id = CLIENT_RABBIT && ev "GL_CODE_RABBIT" ≠ "" then
      pystrip (ev "GL_CODE_RABBIT")
    else if client_tax_id = CLIENT_SHD && ev "GL_CODE_SHD" ≠ "" then
      pystrip (ev "GL_CODE_SHD")
    else if client_tax_id = CLIENT_TOPONE && ev "GL_CODE_TOPONE" ≠ "" then
      pystrip (ev "GL_CODE_TOPONE")
    else
      let cur := getStrOrStrip row "K_account"
      if cur ≠ "" then cur else getStrOrStrip row "U_group"

/-- Skip JSON whitespace. -/
def jsonSkipWs (cs : List Char) : List Char := cs.dropWhile (fun c => isPyWs c)

/-- Parse one JSON string literal (escapes are not reproduced; the
configuration values at hand are plain tax-id strings). -/
def jsonString? : List Char → Option (String × List Char)
  | '"' :: t =>
    let body := t.takeWhile (fun c => !(c == '"'))
    (match t.dropWhile (fun c => !(c == '"')) with
     | '"' :: r => some (String.mk body, r)
     | _ => none)
  | _ => none

/-- Parse one JSON number token and render it the way `str()` renders the
parsed value (`int` for plain digit runs, float otherwise). -/
def jsonNumTok? (cs : List Char) : Option (String × List Char) :=
  let isNt := fun (c : Char) =>
    c.isDigit || c == '-' || c == '+' || c == '.' || c == 'e' || c == 'E'
  let tok := cs.takeWhile isNt
  if tok.isEmpty then none
  else
    match parseFloat? (String.mk tok) with
    | some q =>
      let rendered :=
        if tok.all (fun c => c.isDigit || c == '-') then intRepr q.num
        else floatRepr q
      some (rendered, cs.drop tok.length)
    | none => none

/-- One JSON scalar: string or number. -/
def jsonScalar? (cs : List Char) : Option (String × List Char) :=
  match jsonString? cs with
  | some r => some r
  | none => jsonNumTok? cs

/-- Elements after the first in a JSON list body (the fuel starts at the
input length and bounds the element count). -/
def jsonListTail? : Nat → List Char → Option (List String × List Char)
  | 0, _ => none
  | fuel + 1, cs =>
    match jsonSkipWs cs with
    | ']' :: r => some ([], r)
    | ',' :: r =>
      (match jsonScalar? (jsonSkipWs r) with
       | some (x, r2) =>
         (match jsonListTail? fuel r2 with
          | some (xs, r3) => some (x :: xs, r3)
          | none => none)
       | none => none)
    | _ => none

/-- Parse a JSON list of scalars, modelling the `json.loads` call of
`_as_list` on the list payloads the code accepts. -/
def jsonList? (s : String) : Option (List String) :=
  match jsonSkipWs s.data with
  | '[' :: r =>
    (match jsonSkipWs r with
     | ']' :: r2 => if (jsonSkipWs r2).isEmpty then some [] else none
     | r1 =>
       match jsonScalar? r1 with
       | some (x, r2) =>
         (match jsonListTail? (r2.length + 1) r2 with
          | some (xs, r3) => if (jsonSkipWs r3).isEmpty then some (x :: xs) else none
          | none => none)
       | none => none)
  | _ => none

/-- `_as_list` of extract_service.py. -/
def _as_list (v : PyVal) : List String :=
  match v with
  | .vnone => []
  | .vlist xs => (xs.map (fun x => pystrip (pyStr x))).filter (· ≠ "")
  | _ =>
    let s := pystrip (pyStr v)
    if s = "" then []
    else
      let jres : Option (List String) :=
        if (s.startsWith "[" && s.endsWith "]")
            || (s.startsWith "\"" && s.endsWith "\"") then
          match jsonList? s with
          | some l => some ((l.map pystrip).filter (· ≠ ""))
          | none =>
            match jsonString? s.data with
            | some (j, rest) =>
              if (jsonSkipWs rest).isEmpty then
                (if pystrip j ≠ "" then some [pystrip j] else none)
              else none
            | none => none
        else none
      match jres with
      | some l => l
      | none =>
        if s.data.contains ',' then
          ((s.split (fun c => c == ',')).map pystrip).filter (· ≠ "")
        else [s]

/-- The tag loop of `_resolve_client_tax_id_from_cfg`. -/
def tagLoop (ids : List String) : List String → Option String
  | [] => none
  | t :: rest =>
    match CLIENT_TAX_BY_TAG.lookup t with
    | some tax => if tax ≠ "" && ids.contains tax then some tax else tagLoop ids rest
    | none => tagLoop ids rest

/-- `_resolve_client_tax_id_from_cfg` of extract_service.py.  The last
resort, `detect_client_from_context`, comes from the `vendor_mapping`
module, which does not exist in this source tree — the guarded import at
the top of extract_service.py fails and leaves it `None` — so step 5 is a
no-op here.  The `filename` argument is unused by the source as well. -/
def _resolve_client_tax_id_from_cfg (cfg : Cfg) (_filename _text : String) : String :=
  let c1 := getStrOrStrip cfg "client_tax_id"
  if c1 ≠ "" then c1
  else
    let ids := _as_list (rgetN cfg "client_tax_ids")
    if ids.length = 1 then pystrip (ids.headD "")
    else
      let tags := (_as_list (rgetN cfg "client_tags")).map (fun t => pystrip (upperStr t))
      match tagLoop ids tags with
      | some tax => tax
      | none => if !ids.isEmpty then pystrip (ids.headD "") else ""

/-- `_resolve_client_tax_id` of extract_service.py. -/
def _resolve_client_tax_id (text client_tax_id : String) (cfg : Cfg) : String :=
  let ctax := pystrip client_tax_id
  if ctax ≠ "" then ctax
  else pystrip (_resolve_client_tax_id_from_cfg cfg
    (pyStr (rgetD cfg "_filename" (.vstr ""))) text)

/-- The opening of `finalize_row`, in source order: sanitize the incoming
row, blank the note field by policy, and ensure the document date from the
document text only (never from the filename). -/
def rowAfterDate (rowIn : RowInput) (text : String) : Row :=
  let row := _sanitize_incoming_row rowIn
  let row := rset row "T_note" (.vstr "")
  if getStrOrStrip row "B_doc_date" = "" then
    (let dd := _extract_doc_date_from_text text
     if dd ≠ "" then rset row "B_doc_date" (.vstr dd) else row)
  else row

/-- The remainder of `finalize_row` before the final schema lock, in source
order: company name, platform defaults, reference resolution, description
assembly, wallet resolution, GL resolution, minimal defaults, and the
withholding-tax policy.  The `try/except` around `resolve_wallet_code` is
dead in the model (the function is total). -/
def finalizeTail (env : Env) (row : Row)
    (platform text filename client_tax_id : String) (cfg : Cfg) : Row :=
  let p := pystrip (upperStr (if platform = "" then "UNKNOWN" else platform))
  let ctax := _resolve_client_tax_id text client_tax_id cfg
  let row :=
    if ctax ≠ "" && getStrOrStrip row "A_company_name" = "" then
      rset row "A_company_name" (.vstr (_resolve_company_name env ctax cfg))
    else row
  let row := _enforce_platform_rules row p
  let src_file := _try_get_source_filename filename row
  let best_ref := _pick_best_reference p src_file row text
  let row := rset row "C_reference" (.vstr best_ref)
  let row := rset row "G_invoice_no" (.vstr best_ref)
  let row := rset row "C_reference"
    (.vstr (_compact_no_ws (rgetD row "C_reference" (.vstr ""))))
  let row := rset row "G_invoice_no"
    (.vstr (_compact_no_ws (rgetD row "G_invoice_no" (.vstr ""))))
  let seller_id := _guess_seller_id row text
  let username := _guess_username row text
  let base_desc := getStrOrStrip row "L_description"
  let row := rset row "L_description"
    (.vstr (_build_description_structure base_desc p seller_id username src_file))
  let row :=
    if getStrOrStrip row "Q_payment_method" = "" then
      (let shop_name :=
        let a := getStrOrStrip row "shop_name"
        if a ≠ "" then a else
          let b := getStrOrStrip row "seller_name"
          if b ≠ "" then b else
            let c := getStrOrStrip row "username"
            if c ≠ "" then c else if username ≠ "" then username else src_file
       let wallet := resolve_wallet_code
         (if ctax ≠ "" then ctax else client_tax_id) seller_id shop_name text
       if wallet ≠ "" then rset row "Q_payment_method" (.vstr wallet)
       else rset row "Q_payment_method" (.vstr (getStrOrStrip row "Q_payment_method")))
    else row
  let row :=
    if getStrOrStrip row "K_account" = "" then
      rset row "K_account" (.vstr (_resolve_gl_code env ctax p row cfg))
    else row
  let row := rsetdefault row "A_seq" (.vstr "")
  let row := rsetdefault row "J_price_type"
    (pyOr (rgetN row "J_price_type")
      (.vstr (if p = "META" || p = "GOOGLE" then "3" else "1")))
  let row := rsetdefault row "M_qty" (pyOr (rgetN row "M_qty") (.vstr "1"))
  let row :=
    if getStrOrStrip row "O_vat_rate" = "" then
      rset row "O_vat_rate" (.vstr (if p = "META" || p = "GOOGLE" then "NO" else "7%"))
    else row
  _apply_wht_policy env row cfg text

/-- Everything `finalize_row` does before the final schema lock. -/
def finalizePre (env : Env) (rowIn : RowInput)
    (platform text filename client_tax_id : String) (cfg : Cfg) : Row :=
  finalizeTail env (rowAfterDate rowIn text) platform text filename client_tax_id cfg

/-- `finalize_row` of extract_service.py: the pre-lock pipeline followed by
the schema lock. -/
def finalize_row (env : Env) (rowIn : RowInput)
    (platform text filename client_tax_id : String) (cfg : Cfg) : Row :=
  lock_peak_columns (.dict (finalizePre env rowIn platform text filename client_tax_id cfg))

theorem lockRow_internal_mem (safe : Row) (acc : Row) (k : String) :
    k ∈ rkeys (safe.foldl
      (fun o kv => if kv.1.startsWith "_" then rset o kv.1 kv.2 else o) acc)
      ↔ k ∈ rkeys acc ∨ (k ∈ rkeys safe ∧ k.startsWith "_") := by
  induction safe generalizing acc with
  | nil => simp [rkeys]
  | cons kv t ih =>
    simp only [List.foldl_cons]
    rw [ih]
    by_cases h : kv.1.startsWith "_"
    · rw [if_pos h, mem_rkeys_rset]
      simp only [rkeys, List.map_cons, List.mem_cons]
      constructor
      · rintro ((ha | he) | ⟨ht, hs⟩)
        · exact Or.inl ha
        · exact Or.inr ⟨Or.inl he, he ▸ h⟩
        · exact Or.inr ⟨Or.inr ht, hs⟩
      · rintro (ha | ⟨(he | ht), hs⟩)
        · exact Or.inl (Or.inl ha)
        · exact Or.inl (Or.inr he)
        · exact Or.inr ⟨ht, hs⟩
    · rw [if_neg h]
      simp only [rkeys, List.map_cons, List.mem_cons]
      constructor
      · rintro (ha | ⟨ht, hs⟩)
        · exact Or.inl ha
        · exact Or.inr ⟨Or.inr ht, hs⟩
      · rintro (ha | ⟨(he | ht), hs⟩)
        · exact Or.inl ha
        · exact absurd (he ▸ hs) h
        · exact Or.inr ⟨ht, hs⟩

theorem fold_rset_mem (l : List String) (f : String → PyVal) (acc : Row) (k : String) :
    k ∈ rkeys (l.foldl (fun o k' => rset o k' (f k')) acc)
      ↔ k ∈ rkeys acc ∨ k ∈ l := by
  induction l generalizing acc with
  | nil => simp
  | cons x t ih =>
    simp only [List.foldl_cons]
    rw [ih, mem_rkeys_rset]
    simp only [List.mem_cons]
    tauto

theorem fold_rset_get_notmem (l : List String) (f : String → PyVal) (acc : Row)
    (k : String) (h : k ∉ l) :
    rget? (l.foldl (fun o k' => rset o k' (f k')) acc) k = rget? acc k := by
  induction l generalizing acc with
  | nil => rfl
  | cons x t ih =>
    simp only [List.foldl_cons]
    rw [ih _ (fun hm => h (List.mem_cons_of_mem x hm)),
      rget?_rset_ne _ _ _ _ (fun he => h (by rw [he]; exact List.mem_cons_self x t))]

theorem fold_rset_get_mem (l : List String) (f : String → PyVal) (acc : Row)
    (k : String) (h : k ∈ l) :
    rget? (l.foldl (fun o k' => rset o k' (f k')) acc) k = some (f k) := by
  induction l generalizing acc with
  | nil => exact absurd h (List.not_mem_nil k)
  | cons x t ih =>
    simp only [List.foldl_cons]
    by_cases ht : k ∈ t
    · exact ih _ ht
    · have hx : k = x := by
        rcases List.mem_cons.mp h with he | hm
        · exact he
        · exact absurd hm ht
      rw [fold_rset_get_notmem t f _ k ht, hx, rget?_rset_self]

theorem lockRow_mem (safe : Row) (k : String) :
    k ∈ rkeys (lockRow safe)
      ↔ (k ∈ rkeys safe ∧ k.startsWith "_") ∨ k ∈ PEAK_KEYS_ORDER := by
  unfold lockRow
  rw [fold_rset_mem, lockRow_internal_mem]
  simp [rkeys]

theorem lockRow_get_peak (safe : Row) (k : String) (h : k ∈ PEAK_KEYS_ORDER) :
    rget? (lockRow safe) k = some (rgetD safe k (.vstr "")) := by
  unfold lockRow
  exact fold_rset_get_mem PEAK_KEYS_ORDER (fun k => rgetD safe k (.vstr "")) _ k h

/-- C3. The schema lock returns a mapping whose keys are exactly the 22
contractual PEAK keys plus exactly the input keys that begin with the
reserved underscore prefix (stated as a membership equivalence, which makes
"exactly" precise without assuming anything about the input); and hence
every row returned by `finalize_row` — which ends in `lock_peak_columns` —
carries no key outside the PEAK schema and the underscore-prefixed
diagnostics. -/
theorem c3_schema_lock_keys :
    (∀ (x : RowInput) (k : String),
      k ∈ rkeys (lock_peak_columns x)
        ↔ (k ∈ rkeys (_sanitize_incoming_row x) ∧ k.startsWith "_")
          ∨ k ∈ PEAK_KEYS_ORDER)
    ∧ (∀ (env : Env) (rowIn : RowInput) (platform text filename client_tax_id : String)
        (cfg : Cfg) (k : String),
        k ∈ rkeys (finalize_row env rowIn platform text filename client_tax_id cfg) →
        k.startsWith "_" ∨ k ∈ PEAK_KEYS_ORDER) := by
  constructor
  · intro x k
    exact lockRow_mem (_sanitize_incoming_row x) k
  · intro env rowIn platform text filename client_tax_id cfg k hk
    unfold finalize_row lock_peak_columns _sanitize_incoming_row at hk
    rcases (lockRow_mem _ k).mp hk with ⟨_, hs⟩ | hp
    · exact Or.inl hs
    · exact Or.inr hp

/-- C10. `lock_peak_columns` is total and default-filling: it is a total
function of an arbitrary input value (a non-dict input is treated as the
empty row, and no branch can fail), every contractual key the input does
not supply comes out bound to the empty string, and every contractual key
the input does supply keeps its input value — both cases being exactly
`rgetD safe k ""` on the sanitized input. -/
theorem c10_lock_total_default_filling :
    ∀ (x : RowInput) (k : String), k ∈ PEAK_KEYS_ORDER →
      rget? (lock_peak_columns x) k
        = some (rgetD (_sanitize_incoming_row x) k (.vstr "")) := by
  intro x k hk
  exact lockRow_get_peak (_sanitize_incoming_row x) k hk

/-- Witness for C10 at concrete inputs: a supplied key keeps its value, an
unsupplied key gets `""`, and a non-dict input yields the all-default row. -/
theorem c10_lock_total_default_filling_witness :
    ("B_doc_date" ∈ PEAK_KEYS_ORDER
      ∧ rget? (lock_peak_columns (.dict [("B_doc_date", .vstr "20250102")])) "B_doc_date"
          = some (.vstr "20250102"))
    ∧ (rget? (lock_peak_columns (.dict [("B_doc_date", .vstr "20250102")])) "P_wht"
          = some (.vstr ""))
    ∧ rget? (lock_peak_columns .nondict) "B_doc_date" = some (.vstr "") := by
  refine ⟨⟨by decide, ?_⟩, ?_, ?_⟩
  · rw [c10_lock_total_default_filling (.dict [("B_doc_date", .vstr "20250102")])
      "B_doc_date" (by decide)]
    rfl
  · rw [c10_lock_total_default_filling (.dict [("B_doc_date", .vstr "20250102")])
      "P_wht" (by decide)]
    rfl
  · rw [c10_lock_total_default_filling .nondict "B_doc_date" (by decide)]
    rfl


theorem mergeLoop_get_blacklisted (patch : Row) (base : Row) (fm : Bool)
    (k : String) (h : k ∈ _AI_BLACKLIST_KEYS) :
    rget? (mergeLoop base patch fm) k = rget? base k := by
  induction patch generalizing base with
  | nil => rfl
  | cons kv t ih =>
    obtain ⟨k', v⟩ := kv
    simp only [mergeLoop]
    by_cases h1 : k' = "" ∨ k' ∈ _AI_BLACKLIST_KEYS
    · rw [if_pos h1]
      exact ih base
    · rw [if_neg h1]
      have hne : k ≠ k' := by
        intro he
        exact h1 (Or.inr (he ▸ h))
      by_cases h2 : isEmptyOrNone v
      · rw [if_pos h2]; exact ih base
      · rw [if_neg h2]
        cases fm with
        | true =>
          rw [if_pos rfl]
          by_cases h3 : isMissingLike (rgetD base k' (.vstr ""))
          · rw [if_pos h3, ih (rset base k' v), rget?_rset_ne _ _ _ _ hne]
          · rw [if_neg h3]; exact ih base
        | false =>
          rw [if_neg (by simp)]
          rw [ih (rset base k' v), rget?_rset_ne _ _ _ _ hne]

theorem sanitize_ai_drops_blacklisted (ai : Row) (k : String)
    (h : k ∈ _AI_BLACKLIST_KEYS) : k ∉ rkeys (_sanitize_ai_row ai) := by
  induction ai with
  | nil => simp [_sanitize_ai_row, rkeys]
  | cons kv t ih =>
    obtain ⟨k', v⟩ := kv
    simp only [_sanitize_ai_row]
    have hne : k ≠ k' → k ∈ rkeys ((k', v) :: _sanitize_ai_row t) → k ∈ rkeys (_sanitize_ai_row t) := by
      intro hne hm
      simp only [rkeys, List.map_cons, List.mem_cons] at hm
      rcases hm with he | hm
      · exact absurd he hne
      · exact hm
    by_cases h1 : k' = ""
    · rw [if_pos h1]; exact ih
    · rw [if_neg h1]
      by_cases h2 : k' ∈ _AI_BLACKLIST_KEYS
      · rw [if_pos h2]; exact ih
      · rw [if_neg h2]
        have hkne : k ≠ k' := by
          intro he
          exact h2 (he ▸ h)
        by_cases h3 : isEmptyOrNone v
        · rw [if_pos h3]; exact ih
        · rw [if_neg h3]
          by_cases h4 : k' ∈ PEAK_KEYS_ORDER
          · rw [if_pos h4]
            intro hm
            exact ih (hne hkne hm)
          · rw [if_neg h4]
            by_cases h5 : k'.startsWith "_"
            · rw [if_pos h5]
              intro hm
              exact ih (hne hkne hm)
            · rw [if_neg h5]; exact ih

/-- C8. The policy-owned fields (expense group `U_group`, note `T_note`,
GL account `K_account`) are never overwritten by any external patch:
`_merge_rows` leaves them at the base row's value for every patch in both
fill-missing and overwrite modes, and `_sanitize_ai_row` drops them from
every patch it cleans. -/
theorem c8_blacklist_frame :
    (∀ (base patch : Row) (fill_missing : Bool) (k : String),
      k ∈ _AI_BLACKLIST_KEYS →
      rget? (_merge_rows base patch fill_missing) k = rget? base k)
    ∧ (∀ (ai : Row) (k : String),
        k ∈ _AI_BLACKLIST_KEYS → k ∉ rkeys (_sanitize_ai_row ai)) := by
  constructor
  · intro base patch fm k h
    unfold _merge_rows
    split
    · rfl
    · exact mergeLoop_get_blacklisted patch base fm k h
  · exact sanitize_ai_drops_blacklisted

/-- Witness for C8: a patch that tries to overwrite `U_group` (in both
modes) leaves the base value in place, and sanitising it drops the key. -/
theorem c8_blacklist_frame_witness :
    ("U_group" ∈ _AI_BLACKLIST_KEYS
      ∧ rget? (_merge_rows [("U_group", .vstr "Marketplace Expense")]
          [("U_group", .vstr "Hacked")] true) "U_group"
        = rget? [("U_group", .vstr "Marketplace Expense")] "U_group")
    ∧ rget? (_merge_rows [("U_group", .vstr "Marketplace Expense")]
          [("U_group", .vstr "Hacked")] false) "U_group"
        = rget? [("U_group", .vstr "Marketplace Expense")] "U_group"
    ∧ "U_group" ∉ rkeys (_sanitize_ai_row [("U_group", .vstr "Hacked")]) := by
  refine ⟨⟨by decide, ?_⟩, ?_, ?_⟩
  · exact c8_blacklist_frame.1 _ _ true "U_group" (by decide)
  · exact c8_blacklist_frame.1 _ _ false "U_group" (by decide)
  · exact c8_blacklist_frame.2 _ "U_group" (by decide)

theorem clamp0_eq_max (x : Rat) : (if x < 0 then 0 else x) = max 0 x := by
  rcases le_or_lt 0 x with h | h
  · rw [if_neg (not_lt.mpr h), max_eq_right h]
  · rw [if_pos h, max_eq_left (le_of_lt h)]

/-- C1. Whenever the resolved withholding amount `W` (the value `cur_wht`
holds after the detection and calculation steps) is positive and the gross
amount `G` (the paid-amount field, falling back to the unit-price field
when the paid amount is non-positive) is positive, `_apply_wht_policy`
rewrites the paid-amount field to `max(0, G − W)` rounded (with the code's
1e-9 epsilon bias) and formatted to two decimals. -/
theorem c1_wht_net_invariant :
    ∀ (env : Env) (row : Row) (cfg : Cfg) (text : String),
      0 < (_wht_detect_calc env row cfg text).2 →
      0 < _wht_gross row →
      rget? (_apply_wht_policy env row cfg text) "R_paid_amount"
        = some (.vstr (_fmt_2 (pyRound2
            (max 0 (_wht_gross row - (_wht_detect_calc env row cfg text).2) + eps9)))) := by
  intro env row cfg text hW hG
  simp only [_apply_wht_policy]
  rw [if_pos hW, if_pos hG, clamp0_eq_max]
  split <;> split <;>
    first
      | rw [rget?_rset_ne _ _ _ _ (show "R_paid_amount" ≠ "S_pnd" from by decide),
          rget?_rset_self]
      | rw [rget?_rset_self]

/-- Witness for C1: spec-style scenario with an extractor-provided
withholding of 10 on a gross of 100 — the paid amount becomes `90.00`. -/
theorem c1_wht_net_invariant_witness :
    (0 < (_wht_detect_calc (fun _ => none)
        [("R_paid_amount", .vstr "100"), ("P_wht", .vstr "10")] [] "").2
      ∧ 0 < _wht_gross [("R_paid_amount", .vstr "100"), ("P_wht", .vstr "10")])
    ∧ rget? (_apply_wht_policy (fun _ => none)
        [("R_paid_amount", .vstr "100"), ("P_wht", .vstr "10")] [] "") "R_paid_amount"
      = some (.vstr (_fmt_2 (pyRound2
          (max 0 (_wht_gross [("R_paid_amount", .vstr "100"), ("P_wht", .vstr "10")]
            - (_wht_detect_calc (fun _ => none)
                [("R_paid_amount", .vstr "100"), ("P_wht", .vstr "10")] [] "").2) + eps9)))) := by
  have h1 : (_wht_detect_calc (fun _ => none)
      [("R_paid_amount", .vstr "100"), ("P_wht", .vstr "10")] [] "").2 = (10 : Rat) := by
    with_unfolding_all rfl
  have h2 : _wht_gross [("R_paid_amount", .vstr "100"), ("P_wht", .vstr "10")] = (100 : Rat) := by
    with_unfolding_all rfl
  refine ⟨⟨by rw [h1]; norm_num, by rw [h2]; norm_num⟩, ?_⟩
  exact c1_wht_net_invariant (fun _ => none)
    [("R_paid_amount", .vstr "100"), ("P_wht", .vstr "10")] [] ""
    (by rw [h1]; norm_num) (by rw [h2]; norm_num)

theorem getStrOrStrip_rset_ne (r : Row) (k : String) (v : PyVal) (k' : String)
    (h : k' ≠ k) : getStrOrStrip (rset r k v) k' = getStrOrStrip r k' := by
  unfold getStrOrStrip getStrOr rgetN rgetD
  rw [rget?_rset_ne _ _ _ _ h]

/-- C5 counterexample.  The claim says a stale non-numeric withholding
value is blanked when calculation is disabled, detection finds nothing and
no positive withholding was present.  At the concrete input below all
three hypotheses of the claim hold — `calculate_wht` is absent (disabled),
the empty text detects nothing, and the existing `P_wht = "abc"` parses to
0, so no positive value is present — yet the field comes out `"abc"`, not
blank: the code only blanks when the raw string is empty (`not cur_wht_s`),
not when it is merely non-positive. -/
theorem c5_wht_blank_counterexample :
    whtEnabledCalc [] = false
    ∧ _extract_wht_from_text "" = (0, 0)
    ∧ _to_float (.vstr (whtCurS [("P_wht", .vstr "abc")])) = 0
    ∧ rget? (_apply_wht_policy (fun _ => none) [("P_wht", .vstr "abc")] [] "") "P_wht"
        = some (.vstr "abc") := by
  refine ⟨rfl, rfl, by with_unfolding_all rfl, by with_unfolding_all rfl⟩

/-- C5 amended.  If the fallback calculation is disabled, auto-detection
finds no withholding amount, and the withholding field is empty as a
string (rather than merely carrying no positive value — a stale
non-numeric value is left in place, see the counterexample), then
`_apply_wht_policy` explicitly writes the empty string to the withholding
field and sets the filing code, when unset, to the "no withholding" code. -/
theorem c5_wht_blank_amended :
    ∀ (env : Env) (row : Row) (cfg : Cfg) (text : String),
      whtEnabledCalc cfg = false →
      (_extract_wht_from_text text).2 ≤ 0 →
      whtCurS row = "" →
      rget? (_apply_wht_policy env row cfg text) "P_wht" = some (.vstr "")
      ∧ (getStrOrStrip row "S_pnd" = "" →
          rget? (_apply_wht_policy env row cfg text) "S_pnd"
            = some (.vstr (whtPndWhenNo cfg))) := by
  intro env row cfg text hcalc hdet hcur
  have hcur0 : _to_float (.vstr (whtCurS row)) = 0 := by
    rw [hcur]; with_unfolding_all rfl
  have hdc : _wht_detect_calc env row cfg text
      = (row, _to_float (.vstr (whtCurS row))) := by
    simp only [_wht_detect_calc]
    rw [hcalc]
    simp only [Bool.false_and, Bool.false_eq_true, if_false]
    split
    · rw [if_neg (not_lt.mpr hdet)]
    · rfl
  have happ : _apply_wht_policy env row cfg text
      = (if getStrOrStrip (rset row "P_wht" (.vstr "")) "S_pnd" = ""
         then rset (rset row "P_wht" (.vstr "")) "S_pnd" (.vstr (whtPndWhenNo cfg))
         else rset row "P_wht" (.vstr "")) := by
    simp only [_apply_wht_policy]
    rw [hdc]
    simp only [Prod.fst, Prod.snd]
    rw [hcur0, if_neg (lt_irrefl 0), hcalc, hcur]
    rw [show (!false && decide (("" : String) = "")) = true from by decide]
    simp only [eq_self_iff_true, if_true]
  constructor
  · rw [happ]
    split
    · rw [rget?_rset_ne _ _ _ _ (show "P_wht" ≠ "S_pnd" from by decide), rget?_rset_self]
    · rw [rget?_rset_self]
  · intro hpnd
    rw [happ]
    rw [if_pos (by
      rw [getStrOrStrip_rset_ne _ _ _ _ (show "S_pnd" ≠ "P_wht" from by decide)]
      exact hpnd)]
    rw [rget?_rset_self]

/-- Witness for C5 (amended): the empty row under the empty configuration
gets an explicitly blank withholding field and the default "53" filing
code. -/
theorem c5_wht_blank_amended_witness :
    (whtEnabledCalc [] = false ∧ (_extract_wht_from_text "").2 ≤ 0 ∧ whtCurS [] = "")
    ∧ rget? (_apply_wht_policy (fun _ => none) [] [] "") "P_wht" = some (.vstr "")
    ∧ rget? (_apply_wht_policy (fun _ => none) [] [] "") "S_pnd"
        = some (.vstr (whtPndWhenNo [])) := by
  have h := c5_wht_blank_amended (fun _ => none) [] [] "" rfl
    (by with_unfolding_all rfl) rfl
  exact ⟨⟨rfl, by with_unfolding_all rfl, rfl⟩, h.1, h.2 rfl⟩

/-- C6. The VAT-rate parser: the four spec examples, and the general
clauses — a string ending in `%` yields its number divided by 100, the
no/none/exempt family yields 0, and a bare number is divided by 100 when
greater than 1 and returned unchanged otherwise (the family strings parse
to 0 and fall under the same formula). -/
theorem c6_parse_vat_rate :
    _parse_vat_rate (.vstr "7%") = 7 / 100
    ∧ _parse_vat_rate (.vstr "NO") = 0
    ∧ _parse_vat_rate (.vstr "7") = 7 / 100
    ∧ _parse_vat_rate (.vstr "0.07") = 7 / 100
    ∧ (∀ s : String, upperStr (pystrip s) ≠ "" →
        (upperStr (pystrip s)).endsWith "%" →
        _parse_vat_rate (.vstr s)
          = _to_float (.vstr ((upperStr (pystrip s)).dropRight 1)) / 100)
    ∧ (∀ s : String, upperStr (pystrip s) ≠ "" →
        ¬ (upperStr (pystrip s)).endsWith "%" →
        _parse_vat_rate (.vstr s)
          = (if _to_float (.vstr (upperStr (pystrip s))) > 1
             then _to_float (.vstr (upperStr (pystrip s))) / 100
             else _to_float (.vstr (upperStr (pystrip s))))) := by
  refine ⟨by with_unfolding_all rfl, by with_unfolding_all rfl,
    by with_unfolding_all rfl, by with_unfolding_all rfl, ?_, ?_⟩
  · intro s hne hp
    simp only [_parse_vat_rate, pyStr]
    rw [if_neg hne]
    by_cases hfam :
        (["NO", "NONE", "0", "0%", "EXEMPT"].contains (upperStr (pystrip s))) = true
    · rw [if_pos hfam]
      have hmem : upperStr (pystrip s) = "NO" ∨ upperStr (pystrip s) = "NONE"
          ∨ upperStr (pystrip s) = "0" ∨ upperStr (pystrip s) = "0%"
          ∨ upperStr (pystrip s) = "EXEMPT" := by simpa using hfam
      rcases hmem with h | h | h | h | h
      · rw [h, show ("NO".endsWith "%") = false from by with_unfolding_all rfl] at hp
        exact absurd hp Bool.false_ne_true
      · rw [h, show ("NONE".endsWith "%") = false from by with_unfolding_all rfl] at hp
        exact absurd hp Bool.false_ne_true
      · rw [h, show ("0".endsWith "%") = false from by with_unfolding_all rfl] at hp
        exact absurd hp Bool.false_ne_true
      · rw [h]; with_unfolding_all rfl
      · rw [h, show ("EXEMPT".endsWith "%") = false from by with_unfolding_all rfl] at hp
        exact absurd hp Bool.false_ne_true
    · rw [if_neg hfam, if_pos hp]
  · intro s hne hp
    simp only [_parse_vat_rate, pyStr]
    rw [if_neg hne]
    by_cases hfam :
        (["NO", "NONE", "0", "0%", "EXEMPT"].contains (upperStr (pystrip s))) = true
    · rw [if_pos hfam]
      have hmem : upperStr (pystrip s) = "NO" ∨ upperStr (pystrip s) = "NONE"
          ∨ upperStr (pystrip s) = "0" ∨ upperStr (pystrip s) = "0%"
          ∨ upperStr (pystrip s) = "EXEMPT" := by simpa using hfam
      rcases hmem with h | h | h | h | h
      · rw [h]; with_unfolding_all rfl
      · rw [h]; with_unfolding_all rfl
      · rw [h]; with_unfolding_all rfl
      · rw [h] at hp
        exact absurd (show ("0%".endsWith "%") = true from by with_unfolding_all rfl) hp
      · rw [h]; with_unfolding_all rfl
    · rw [if_neg hfam, if_neg hp]

/-- Witness for C6's general clauses at inputs outside the four examples:
`"8%"` for the percentage clause and `"8"` for the bare-number clause. -/
theorem c6_parse_vat_rate_witness :
    (upperStr (pystrip "8%") ≠ "" ∧ (upperStr (pystrip "8%")).endsWith "%"
      ∧ _parse_vat_rate (.vstr "8%")
          = _to_float (.vstr ((upperStr (pystrip "8%")).dropRight 1)) / 100)
    ∧ (upperStr (pystrip "8") ≠ "" ∧ ¬ (upperStr (pystrip "8")).endsWith "%"
      ∧ _parse_vat_rate (.vstr "8")
          = (if _to_float (.vstr (upperStr (pystrip "8"))) > 1
             then _to_float (.vstr (upperStr (pystrip "8"))) / 100
             else _to_float (.vstr (upperStr (pystrip "8"))))) := by
  have he1 : (upperStr (pystrip "8%")).endsWith "%" = true := by with_unfolding_all rfl
  have he2 : (upperStr (pystrip "8")).endsWith "%" = false := by with_unfolding_all rfl
  have hn2 : ¬ (upperStr (pystrip "8")).endsWith "%" = true := by
    rw [he2]; exact Bool.false_ne_true
  refine ⟨⟨by decide, he1, ?_⟩, ⟨by decide, hn2, ?_⟩⟩
  · exact c6_parse_vat_rate.2.2.2.2.1 "8%" (by decide) he1
  · exact c6_parse_vat_rate.2.2.2.2.2 "8" (by decide) hn2

theorem lookup_getD_mem (l : List (String × String)) (k : String)
    (h : (l.lookup k).getD "" ≠ "") : (l.lookup k).getD "" ∈ l.map Prod.snd := by
  induction l with
  | nil => simp [List.lookup] at h
  | cons p t ih =>
    simp only [List.lookup] at h ⊢
    cases hk : (k == p.1) with
    | true => simp [hk]
    | false =>
      simp only [hk] at h ⊢
      simp only [List.map_cons, List.mem_cons]
      exact Or.inr (ih h)

theorem valid_wallet_ne_empty (c : String) (h : _is_valid_wallet c = true) : c ≠ "" := by
  intro he
  rw [he] at h
  exact absurd h (by decide)

theorem matchKeyLoop_cases (sn : String) (bs : List (String × String)) :
    ∀ keys : List String,
      matchKeyLoop sn bs keys = ""
      ∨ (_is_valid_wallet (matchKeyLoop sn bs keys) = true
         ∧ matchKeyLoop sn bs keys ∈ bs.map Prod.snd) := by
  intro keys
  induction keys with
  | nil => exact Or.inl rfl
  | cons k t ih =>
    simp only [matchKeyLoop]
    by_cases hv : _is_valid_wallet ((bs.lookup k).getD "") = true
    · rw [if_neg (by rw [hv]; simp)]
      by_cases hi : isInfixStr k sn = true
      · rw [if_pos hi]
        exact Or.inr ⟨hv, lookup_getD_mem bs k (valid_wallet_ne_empty _ hv)⟩
      · rw [if_neg hi]
        exact ih
    · rw [if_pos (by simpa using hv)]
      exact ih

theorem match_shop_keyword_cases (sn : String) (bs : List (String × String)) :
    _match_shop_keyword sn bs = ""
    ∨ (_is_valid_wallet (_match_shop_keyword sn bs) = true
       ∧ _match_shop_keyword sn bs ∈ bs.map Prod.snd) := by
  unfold _match_shop_keyword
  split
  · exact Or.inl rfl
  · exact matchKeyLoop_cases sn bs _

/-- C4. Wallet resolution returns either the empty string or a valid
`EWL` + three-digit code drawn from the selected company's two lookup
tables (so in particular never a platform name); a company tax identity
outside the three known buckets resolves to the empty string; and a
merchant id whose normalized form is not mapped to a valid wallet in the
active company's id table never by itself (no shop name, no text) yields a
non-empty result. -/
theorem c4_wallet_resolution :
    (∀ ctax sid shop text : String,
      resolve_wallet_code ctax sid shop text = ""
      ∨ (_is_valid_wallet (resolve_wallet_code ctax sid shop text) = true
         ∧ resolve_wallet_code ctax sid shop text
            ∈ ((_tables_for_client (_client_bucket ctax)).1.map Prod.snd
               ++ (_tables_for_client (_client_bucket ctax)).2.map Prod.snd)))
    ∧ (∀ ctax sid shop text : String, _client_bucket ctax = "" →
        resolve_wallet_code ctax sid shop text = "")
    ∧ (∀ ctax sid : String,
        ¬ _is_valid_wallet
            (((_tables_for_client (_client_bucket ctax)).1.lookup
              (_norm_id_loose sid)).getD "") = true →
        resolve_wallet_code ctax sid "" "" = "") := by
  have hstep34 : ∀ ctax shop text : String,
      (_match_shop_keyword (_norm_shop_name shop)
          (_tables_for_client (_client_bucket ctax)).2 = ""
        ∨ (_is_valid_wallet (_match_shop_keyword (_norm_shop_name shop)
              (_tables_for_client (_client_bucket ctax)).2) = true
           ∧ _match_shop_keyword (_norm_shop_name shop)
                (_tables_for_client (_client_bucket ctax)).2
              ∈ (_tables_for_client (_client_bucket ctax)).2.map Prod.snd)) := by
    intro ctax shop text
    exact match_shop_keyword_cases _ _
  refine ⟨?_, ?_, ?_⟩
  · intro ctax sid shop text
    simp only [resolve_wallet_code]
    by_cases hb : _client_bucket ctax = ""
    · rw [if_pos hb]
      exact Or.inl rfl
    · rw [if_neg hb]
      have cont4 : ∀ r : String, (r = "" ∨ (_is_valid_wallet r = true
          ∧ r ∈ (_tables_for_client (_client_bucket ctax)).2.map Prod.snd)) →
          (r = "" ∨ (_is_valid_wallet r = true
            ∧ r ∈ ((_tables_for_client (_client_bucket ctax)).1.map Prod.snd
                ++ (_tables_for_client (_client_bucket ctax)).2.map Prod.snd))) := by
        rintro r (h | ⟨hv, hm⟩)
        · exact Or.inl h
        · exact Or.inr ⟨hv, List.mem_append.mpr (Or.inr hm)⟩
      have contId : ∀ k : String,
          _is_valid_wallet (((_tables_for_client (_client_bucket ctax)).1.lookup k).getD "") = true →
          ((((_tables_for_client (_client_bucket ctax)).1.lookup k).getD "") = ""
            ∨ (_is_valid_wallet (((_tables_for_client (_client_bucket ctax)).1.lookup k).getD "") = true
              ∧ (((_tables_for_client (_client_bucket ctax)).1.lookup k).getD "")
                ∈ ((_tables_for_client (_client_bucket ctax)).1.map Prod.snd
                    ++ (_tables_for_client (_client_bucket ctax)).2.map Prod.snd))) := by
        intro k hv
        exact Or.inr ⟨hv, List.mem_append.mpr
          (Or.inl (lookup_getD_mem _ _ (valid_wallet_ne_empty _ hv)))⟩
      have tail34 :
          ((if _norm_shop_name shop ≠ "" then
              (if _is_valid_wallet (_match_shop_keyword (_norm_shop_name shop)
                  (_tables_for_client (_client_bucket ctax)).2) = true then
                some (_match_shop_keyword (_norm_shop_name shop)
                  (_tables_for_client (_client_bucket ctax)).2)
              else none)
            else none).getD
            (if text ≠ "" then
              (if _is_valid_wallet (_match_shop_keyword (_norm_shop_name text)
                  (_tables_for_client (_client_bucket ctax)).2) = true then
                _match_shop_keyword (_norm_shop_name text)
                  (_tables_for_client (_client_bucket ctax)).2
              else "")
            else "")) = "" ∨ True := Or.inr trivial
      clear tail34
      by_cases hs : _norm_id_loose sid ≠ ""
      · rw [if_pos hs]
        by_cases hv1 : _is_valid_wallet
            (((_tables_for_client (_client_bucket ctax)).1.lookup
              (_norm_id_loose sid)).getD "") = true
        · rw [if_pos hv1]
          exact contId _ hv1
        · rw [if_neg hv1]
          by_cases hc2 : (decide (_norm_id_loose sid = "") && decide (text ≠ "")) = true
          · rw [if_pos hc2]
            by_cases hs2 : _extract_id_from_text text ≠ ""
            · rw [if_pos hs2]
              by_cases hv2 : _is_valid_wallet
                  (((_tables_for_client (_client_bucket ctax)).1.lookup
                    (_extract_id_from_text text)).getD "") = true
              · rw [if_pos hv2]
                exact contId _ hv2
              · rw [if_neg hv2]
                by_cases hsn : _norm_shop_name shop ≠ ""
                · rw [if_pos hsn]
                  by_cases hv3 : _is_valid_wallet (_match_shop_keyword (_norm_shop_name shop)
                      (_tables_for_client (_client_bucket ctax)).2) = true
                  · rw [if_pos hv3]
                    exact cont4 _ (hstep34 ctax shop text)
                  · rw [if_neg hv3]
                    by_cases ht : text ≠ ""
                    · rw [if_pos ht]
                      by_cases hv4 : _is_valid_wallet (_match_shop_keyword (_norm_shop_name text)
                          (_tables_for_client (_client_bucket ctax)).2) = true
                      · rw [if_pos hv4]
                        exact cont4 _ (hstep34 ctax text text)
                      · rw [if_neg hv4]
                        exact Or.inl rfl
                    · rw [if_neg ht]
                      exact Or.inl rfl
                · rw [if_neg hsn]
                  by_cases ht : text ≠ ""
                  · rw [if_pos ht]
                    by_cases hv4 : _is_valid_wallet (_match_shop_keyword (_norm_shop_name text)
                        (_tables_for_client (_client_bucket ctax)).2) = true
                    · rw [if_pos hv4]
                      exact cont4 _ (hstep34 ctax text text)
                    · rw [if_neg hv4]
                      exact Or.inl rfl
                  · rw [if_neg ht]
                    exact Or.inl rfl
            · rw [if_neg hs2]
              by_cases hsn : _norm_shop_name shop ≠ ""
              · rw [if_pos hsn]
                by_cases hv3 : _is_valid_wallet (_match_shop_keyword (_norm_shop_name shop)
                    (_tables_for_client (_client_bucket ctax)).2) = true
                · rw [if_pos hv3]
                  exact cont4 _ (hstep34 ctax shop text)
                · rw [if_neg hv3]
                  by_cases ht : text ≠ ""
                  · rw [if_pos ht]
                    by_cases hv4 : _is_valid_wallet (_match_shop_keyword (_norm_shop_name text)
                        (_tables_for_client (_client_bucket ctax)).2) = true
                    · rw [if_pos hv4]
                      exact cont4 _ (hstep34 ctax text text)
                    · rw [if_neg hv4]
                      exact Or.inl rfl
                  · rw [if_neg ht]
                    exact Or.inl rfl
              · rw [if_neg hsn]
                by_cases ht : text ≠ ""
                · rw [if_pos ht]
                  by_cases hv4 : _is_valid_wallet (_match_shop_keyword (_norm_shop_name text)
                      (_tables_for_client (_client_bucket ctax)).2) = true
                  · rw [if_pos hv4]
                    exact cont4 _ (hstep34 ctax text text)
                  · rw [if_neg hv4]
                    exact Or.inl rfl
                · rw [if_neg ht]
                  exact Or.inl rfl
          · rw [if_neg hc2]
            by_cases hsn : _norm_shop_name shop ≠ ""
            · rw [if_pos hsn]
              by_cases hv3 : _is_valid_wallet (_match_shop_keyword (_norm_shop_name shop)
                  (_tables_for_client (_client_bucket ctax)).2) = true
              · rw [if_pos hv3]
                exact cont4 _ (hstep34 ctax shop text)
              · rw [if_neg hv3]
                by_cases ht : text ≠ ""
                · rw [if_pos ht]
                  by_cases hv4 : _is_valid_wallet (_match_shop_keyword (_norm_shop_name text)
                      (_tables_for_client (_client_bucket ctax)).2) = true
                  · rw [if_pos hv4]
                    exact cont4 _ (hstep34 ctax text text)
                  · rw [if_neg hv4]
                    exact Or.inl rfl
                · rw [if_neg ht]
                  exact Or.inl rfl
            · rw [if_neg hsn]
              by_cases ht : text ≠ ""
              · rw [if_pos ht]
                by_cases hv4 : _is_valid_wallet (_match_shop_keyword (_norm_shop_name text)
                    (_tables_for_client (_client_bucket ctax)).2) = true
                · rw [if_pos hv4]
                  exact cont4 _ (hstep34 ctax text text)
                · rw [if_neg hv4]
                  exact Or.inl rfl
              · rw [if_neg ht]
                exact Or.inl rfl
      · rw [if_neg hs]
        by_cases hc2 : (decide (_norm_id_loose sid = "") && decide (text ≠ "")) = true
        · rw [if_pos hc2]
          by_cases hs2 : _extract_id_from_text text ≠ ""
          · rw [if_pos hs2]
            by_cases hv2 : _is_valid_wallet
                (((_tables_for_client (_client_bucket ctax)).1.lookup
                  (_extract_id_from_text text)).getD "") = true
            · rw [if_pos hv2]
              exact contId _ hv2
            · rw [if_neg hv2]
              by_cases hsn : _norm_shop_name shop ≠ ""
              · rw [if_pos hsn]
                by_cases hv3 : _is_valid_wallet (_match_shop_keyword (_norm_shop_name shop)
                    (_tables_for_client (_client_bucket ctax)).2) = true
                · rw [if_pos hv3]
                  exact cont4 _ (hstep34 ctax shop text)
                · rw [if_neg hv3]
                  by_cases ht : text ≠ ""
                  · rw [if_pos ht]
                    by_cases hv4 : _is_valid_wallet (_match_shop_keyword (_norm_shop_name text)
                        (_tables_for_client (_client_bucket ctax)).2) = true
                    · rw [if_pos hv4]
                      exact cont4 _ (hstep34 ctax text text)
                    · rw [if_neg hv4]
                      exact Or.inl rfl
                  · rw [if_neg ht]
                    exact Or.inl rfl
              · rw [if_neg hsn]
                by_cases ht : text ≠ ""
                · rw [if_pos ht]
                  by_cases hv4 : _is_valid_wallet (_match_shop_keyword (_norm_shop_name text)
                      (_tables_for_client (_client_bucket ctax)).2) = true
                  · rw [if_pos hv4]
                    exact cont4 _ (hstep34 ctax text text)
                  · rw [if_neg hv4]
                    exact Or.inl rfl
                · rw [if_neg ht]
                  exact Or.inl rfl
          · rw [if_neg hs2]
            by_cases hsn : _norm_shop_name shop ≠ ""
            · rw [if_pos hsn]
              by_cases hv3 : _is_valid_wallet (_match_shop_keyword (_norm_shop_name shop)
                  (_tables_for_client (_client_bucket ctax)).2) = true
              · rw [if_pos hv3]
                exact cont4 _ (hstep34 ctax shop text)
              · rw [if_neg hv3]
                by_cases ht : text ≠ ""
                · rw [if_pos ht]
                  by_cases hv4 : _is_valid_wallet (_match_shop_keyword (_norm_shop_name text)
                      (_tables_for_client (_client_bucket ctax)).2) = true
                  · rw [if_pos hv4]
                    exact cont4 _ (hstep34 ctax text text)
                  · rw [if_neg hv4]
                    exact Or.inl rfl
                · rw [if_neg ht]
                  exact Or.inl rfl
            · rw [if_neg hsn]
              by_cases ht : text ≠ ""
              · rw [if_pos ht]
                by_cases hv4 : _is_valid_wallet (_match_shop_keyword (_norm_shop_name text)
                    (_tables_for_client (_client_bucket ctax)).2) = true
                · rw [if_pos hv4]
                  exact cont4 _ (hstep34 ctax text text)
                · rw [if_neg hv4]
                  exact Or.inl rfl
              · rw [if_neg ht]
                exact Or.inl rfl
        · rw [if_neg hc2]
          by_cases hsn : _norm_shop_name shop ≠ ""
          · rw [if_pos hsn]
            by_cases hv3 : _is_valid_wallet (_match_shop_keyword (_norm_shop_name shop)
                (_tables_for_client (_client_bucket ctax)).2) = true
            · rw [if_pos hv3]
              exact cont4 _ (hstep34 ctax shop text)
            · rw [if_neg hv3]
              by_cases ht : text ≠ ""
              · rw [if_pos ht]
                by_cases hv4 : _is_valid_wallet (_match_shop_keyword (_norm_shop_name text)
                    (_tables_for_client (_client_bucket ctax)).2) = true
                · rw [if_pos hv4]
                  exact cont4 _ (hstep34 ctax text text)
                · rw [if_neg hv4]
                  exact Or.inl rfl
              · rw [if_neg ht]
                exact Or.inl rfl
          · rw [if_neg hsn]
            by_cases ht : text ≠ ""
            · rw [if_pos ht]
              by_cases hv4 : _is_valid_wallet (_match_shop_keyword (_norm_shop_name text)
                  (_tables_for_client (_client_bucket ctax)).2) = true
              · rw [if_pos hv4]
                exact cont4 _ (hstep34 ctax text text)
              · rw [if_neg hv4]
                exact Or.inl rfl
            · rw [if_neg ht]
              exact Or.inl rfl
  · intro ctax sid shop text hb
    simp only [resolve_wallet_code]
    rw [if_pos hb]
  · intro ctax sid hv
    simp only [resolve_wallet_code]
    by_cases hb : _client_bucket ctax = ""
    · rw [if_pos hb]
    · rw [if_neg hb]
      have hc2 : ¬ ((decide (_norm_id_loose sid = "") && decide (("" : String) ≠ "")) = true) := by
        simp
      have hsn : ¬ (_norm_shop_name "" ≠ "") := by
        simp [show _norm_shop_name "" = "" from rfl]
      have ht : ¬ (("" : String) ≠ "") := by simp
      by_cases hs : _norm_id_loose sid ≠ ""
      · rw [if_pos hs, if_neg hv, if_neg hc2, if_neg hsn, if_neg ht]
      · rw [if_neg hs, if_neg hc2, if_neg hsn, if_neg ht]

/-- Witness for C4 at concrete inputs: the RABBIT table hit `253227155`
(shape clause), an unknown tax id (empty-bucket clause), and the absent
merchant id `999999999` (absent-id clause). -/
theorem c4_wallet_resolution_witness :
    (resolve_wallet_code CLIENT_RABBIT "253227155" "" "" = ""
      ∨ (_is_valid_wallet (resolve_wallet_code CLIENT_RABBIT "253227155" "" "") = true
         ∧ resolve_wallet_code CLIENT_RABBIT "253227155" "" ""
            ∈ ((_tables_for_client (_client_bucket CLIENT_RABBIT)).1.map Prod.snd
               ++ (_tables_for_client (_client_bucket CLIENT_RABBIT)).2.map Prod.snd)))
    ∧ (_client_bucket "1234567890123" = ""
       ∧ resolve_wallet_code "1234567890123" "253227155" "shop" "text" = "")
    ∧ (¬ _is_valid_wallet
          (((_tables_for_client (_client_bucket CLIENT_RABBIT)).1.lookup
            (_norm_id_loose "999999999")).getD "") = true
       ∧ resolve_wallet_code CLIENT_RABBIT "999999999" "" "" = "") := by
  have hb : _client_bucket "1234567890123" = "" := by decide
  have habs : ¬ _is_valid_wallet
      (((_tables_for_client (_client_bucket CLIENT_RABBIT)).1.lookup
        (_norm_id_loose "999999999")).getD "") = true := by decide
  refine ⟨c4_wallet_resolution.1 CLIENT_RABBIT "253227155" "" "", ⟨hb, ?_⟩, ⟨habs, ?_⟩⟩
  · exact c4_wallet_resolution.2.1 "1234567890123" "253227155" "shop" "text" hb
  · exact c4_wallet_resolution.2.2 CLIENT_RABBIT "999999999" habs

theorem dropWhile_eq_self_of_none {α : Type} (p : α → Bool) (l : List α)
    (h : ∀ c ∈ l, p c = false) : l.dropWhile p = l := by
  cases l with
  | nil => rfl
  | cons c t =>
    rw [List.dropWhile_cons, if_neg]
    rw [h c (List.mem_cons_self c t)]
    simp

theorem stripChars_eq_self (l : List Char) (h : ∀ c ∈ l, isPyWs c = false) :
    stripChars l = l := by
  unfold stripChars
  rw [dropWhile_eq_self_of_none _ l h,
    dropWhile_eq_self_of_none _ l.reverse (fun c hc => h c (List.mem_reverse.mp hc)),
    List.reverse_reverse]

theorem string_mk_data (s : String) : String.mk s.data = s := rfl

theorem pystrip_eq_self (s : String) (h : ∀ c ∈ s.data, isPyWs c = false) :
    pystrip s = s := by
  unfold pystrip
  rw [stripChars_eq_self s.data h, string_mk_data]

theorem compactStr_no_ws (s : String) :
    ∀ c ∈ (compactStr s).data, isPyWs c = false := by
  intro c hc
  simp only [compactStr] at hc
  split at hc
  · simp at hc
  · simp only [String.mk] at hc
    have := List.of_mem_filter hc
    simpa using this

theorem compactStr_eq_self (s : String) (h : ∀ c ∈ s.data, isPyWs c = false) :
    compactStr s = s := by
  simp only [compactStr]
  rw [pystrip_eq_self s h]
  split
  · rename_i he
    exact he.symm
  · rw [List.filter_eq_self.mpr (by intro c hc; simpa using h c hc), string_mk_data]

theorem compactStr_idem (s : String) : compactStr (compactStr s) = compactStr s :=
  compactStr_eq_self _ (compactStr_no_ws s)

theorem pystrip_compactStr (s : String) : pystrip (compactStr s) = compactStr s :=
  pystrip_eq_self _ (compactStr_no_ws s)

theorem normalize_eq_compact (v : PyVal) :
    _normalize_reference_core v = "" ∨ ∃ u, _normalize_reference_core v = compactStr u := by
  unfold _normalize_reference_core
  cases _normalize_ref_pre v with
  | none => exact Or.inl rfl
  | some u => exact Or.inr ⟨u, rfl⟩

theorem compact_normalize (v : PyVal) :
    compactStr (_normalize_reference_core v) = _normalize_reference_core v := by
  rcases normalize_eq_compact v with h | ⟨u, h⟩
  · rw [h]; rfl
  · rw [h]; exact compactStr_idem u

theorem pystrip_normalize (v : PyVal) :
    pystrip (_normalize_reference_core v) = _normalize_reference_core v := by
  rcases normalize_eq_compact v with h | ⟨u, h⟩
  · rw [h]; rfl
  · rw [h]; exact pystrip_compactStr u

theorem mem_dedupKeepAux (x : String) :
    ∀ (l seen : List String), x ∈ dedupKeepAux seen l → x ∈ l ∧ x ≠ "" := by
  intro l
  induction l with
  | nil => intro seen h; simp [dedupKeepAux] at h
  | cons y t ih =>
    intro seen h
    simp only [dedupKeepAux] at h
    split at h
    · have := ih seen h
      exact ⟨List.mem_cons_of_mem y this.1, this.2⟩
    · rename_i hcond
      rcases List.mem_cons.mp h with he | hm
      · refine ⟨he ▸ List.mem_cons_self y t, ?_⟩
        rw [he]
        intro hye
        exact hcond (Or.inl hye)
      · have := ih (y :: seen) hm
        exact ⟨List.mem_cons_of_mem y this.1, this.2⟩

theorem extract_cands_are_normalized (text : String) :
    ∀ x ∈ _extract_reference_candidates_from_text text,
      ∃ v, x = _normalize_reference_core v := by
  intro x hx
  unfold _extract_reference_candidates_from_text at hx
  split at hx
  · simp at hx
  · have hmem := (mem_dedupKeepAux x _ _ hx).1
    simp only [List.mem_append] at hmem
    rcases hmem with (((h | h) | h) | h) | h <;>
      · obtain ⟨m, _, he⟩ := List.mem_map.mp h
        exact ⟨_, he.symm⟩

theorem pick_cands_are_normalized (src_file : String) (row : Row) (text : String) :
    ∀ x ∈ _pick_candidates src_file row text,
      (∃ v, x = pystrip (_normalize_reference_core v)) ∧ x ≠ "" := by
  intro x hx
  unfold _pick_candidates at hx
  have h1 := mem_dedupKeepAux x _ _ hx
  refine ⟨?_, h1.2⟩
  obtain ⟨c0, hc0, he⟩ := List.mem_map.mp h1.1
  subst he
  simp only [List.mem_append] at hc0
  rcases hc0 with ((hg | ht) | hf)
  · rcases hg with hg | hc
    · split at hg
      · simp only [List.mem_singleton] at hg
        exact ⟨_, by rw [hg]⟩
      · simp at hg
    · split at hc
      · simp only [List.mem_singleton] at hc
        exact ⟨_, by rw [hc]⟩
      · simp at hc
  · obtain ⟨v, he⟩ := extract_cands_are_normalized text c0 ht
    exact ⟨v, by rw [he]⟩
  · split at hf
    · split at hf
      · simp only [List.mem_singleton] at hf
        exact ⟨_, by rw [hf]⟩
      · simp at hf
    · simp at hf

theorem pick_cands_fix (src_file : String) (row : Row) (text : String) :
    ∀ x ∈ _pick_candidates src_file row text,
      x ≠ "" ∧ compactStr x = x ∧ pystrip x = x := by
  intro x hx
  obtain ⟨⟨v, he⟩, hne⟩ := pick_cands_are_normalized src_file row text x hx
  rw [pystrip_normalize] at he
  subst he
  exact ⟨hne, compact_normalize v, pystrip_normalize v⟩

theorem score_of_hash (p r : String) (hstrip : pystrip r = r)
    (hh : _is_probably_hash r = true) : _score_reference p r = 5 := by
  have hne : r ≠ "" := by
    intro he
    rw [he] at hh
    exact absurd hh (by decide)
  simp only [_score_reference]
  rw [hstrip, if_neg hne, if_pos hh]

theorem score_nonhash_gt5 (p r : String) (hstrip : pystrip r = r)
    (hne : r ≠ "") (hh : _is_probably_hash r = false) :
    5 < _score_reference p r := by
  simp only [_score_reference]
  rw [hstrip, if_neg hne, if_neg (by rw [hh]; exact Bool.false_ne_true)]
  split_ifs <;> omega

theorem bestByScore_mem (p : String) :
    ∀ (l : List String) (b : String), bestByScore p b l ∈ b :: l := by
  intro l
  induction l with
  | nil => intro b; simp [bestByScore]
  | cons x t ih =>
    intro b
    simp only [bestByScore]
    split
    · exact List.mem_cons_of_mem b (ih x)
    · rcases List.mem_cons.mp (ih b) with h | h
      · rw [h]; exact List.mem_cons_self b (x :: t)
      · exact List.mem_cons_of_mem b (List.mem_cons_of_mem x h)

theorem dedupKeep_two_same (a : String) (ha : a ≠ "") :
    dedupKeepAux [] [a, a] = [a] := by
  simp only [dedupKeepAux]
  rw [if_neg (by simp [ha]), if_pos (by simp)]

theorem dedupKeep_two_ne (a b : String) (ha : a ≠ "") (hb : b ≠ "") (hba : b ≠ a) :
    dedupKeepAux [] [a, b] = [a, b] := by
  simp only [dedupKeepAux]
  rw [if_neg (by simp [ha]), if_neg (by simp [hb, hba])]

theorem pick_cands_pairrow (a b : String)
    (hna : _normalize_reference_core (.vstr a) = a)
    (hnb : _normalize_reference_core (.vstr b) = b)
    (ha : a ≠ "") (hb : b ≠ "") (hba : b ≠ a) :
    _pick_candidates "" [("G_invoice_no", .vstr a), ("C_reference", .vstr b)] "" = [a, b] := by
  have hsa : pystrip a = a := by rw [← hna]; exact pystrip_normalize _
  have hsb : pystrip b = b := by rw [← hnb]; exact pystrip_normalize _
  simp only [_pick_candidates]
  rw [show rgetD [("G_invoice_no", PyVal.vstr a), ("C_reference", PyVal.vstr b)]
        "C_reference" (.vstr "") = .vstr b from rfl,
    show rgetD [("G_invoice_no", PyVal.vstr a), ("C_reference", PyVal.vstr b)]
        "G_invoice_no" (.vstr "") = .vstr a from rfl,
    hna, hnb, if_pos ha, if_pos hb,
    show _extract_reference_candidates_from_text "" = [] from rfl,
    if_neg (by simp : ¬(("" : String) ≠ ""))]
  show dedupKeepAux [] [pystrip a, pystrip b] = [a, b]
  rw [hsa, hsb]
  exact dedupKeep_two_ne a b ha hb hba

/-- C2. If the de-duplicated candidate list contains a candidate that is
not shaped like a 32-character hex hash, the selected reference is not
hash-shaped; and for a candidate set of one hash-shaped string and one
non-hash reference string (given in the two row fields, in either order),
the non-hash reference is selected. -/
theorem c2_hash_never_selected :
    (∀ (platform src_file : String) (row : Row) (text : String),
      (∃ c ∈ _pick_candidates src_file row text, _is_probably_hash c = false) →
      _is_probably_hash (_pick_best_reference platform src_file row text) = false)
    ∧ (∀ (platform h r : String),
        _is_probably_hash h = true → _is_probably_hash r = false →
        r ≠ "" → h ≠ r →
        _normalize_reference_core (.vstr h) = h →
        _normalize_reference_core (.vstr r) = r →
        _pick_best_reference platform ""
            [("G_invoice_no", .vstr h), ("C_reference", .vstr r)] "" = r
        ∧ _pick_best_reference platform ""
            [("G_invoice_no", .vstr r), ("C_reference", .vstr h)] "" = r) := by
  constructor
  · intro platform src_file row text hex
    obtain ⟨c, hc, hch⟩ := hex
    simp only [_pick_best_reference]
    cases hu : _pick_candidates src_file row text with
    | nil =>
      rw [hu] at hc
      exact absurd hc (List.not_mem_nil c)
    | cons b0 restU =>
      rw [hu] at hc
      simp only [_select_best_reference]
      by_cases hh : _is_probably_hash (bestByScore (pystrip (upperStr platform)) b0 restU) = true
      · rw [if_pos hh]
        cases hf : (b0 :: restU).find? (fun x => x ≠ "" && !(_is_probably_hash x)) with
        | none =>
          have hfix := pick_cands_fix src_file row text c (by rw [hu]; exact hc)
          have hex2 : ∃ x, x ∈ b0 :: restU ∧ (x ≠ "" && !(_is_probably_hash x)) = true :=
            ⟨c, hc, by rw [hch]; simp [hfix.1]⟩
          have := List.find?_isSome.mpr hex2
          rw [hf] at this
          simp at this
        | some y =>
          have hymem : y ∈ b0 :: restU := List.mem_of_find?_eq_some hf
          have hyfix := pick_cands_fix src_file row text y (by rw [hu]; exact hymem)
          have hyp := List.find?_some hf
          show _is_probably_hash (compactStr y) = false
          rw [hyfix.2.1]
          simp only [Bool.and_eq_true] at hyp
          simpa using hyp.2
      · rw [if_neg hh]
        have hbmem := bestByScore_mem (pystrip (upperStr platform)) restU b0
        have hbfix := pick_cands_fix src_file row text _ (by rw [hu]; exact hbmem)
        show _is_probably_hash (compactStr (bestByScore (pystrip (upperStr platform)) b0 restU)) = false
        rw [hbfix.2.1]
        simpa using hh
  · intro platform h r hhh hhr hrne hhne hnh hnr
    have hhne' : h ≠ "" := by
      intro he
      rw [he] at hhh
      exact absurd hhh (by decide)
    have hsh : pystrip h = h := by rw [← hnh]; exact pystrip_normalize _
    have hsr : pystrip r = r := by rw [← hnr]; exact pystrip_normalize _
    have hcr : compactStr r = r := by rw [← hnr]; exact compact_normalize _
    have h5 : _score_reference (pystrip (upperStr platform)) h = 5 :=
      score_of_hash _ h hsh hhh
    have hgt : 5 < _score_reference (pystrip (upperStr platform)) r :=
      score_nonhash_gt5 _ r hsr hrne hhr
    constructor
    · simp only [_pick_best_reference]
      rw [pick_cands_pairrow h r hnh hnr hhne' hrne (fun he => hhne he.symm)]
      simp only [_select_best_reference, bestByScore]
      rw [h5, if_pos hgt]
      rw [if_neg (by rw [hhr]; exact Bool.false_ne_true)]
      exact hcr
    · simp only [_pick_best_reference]
      rw [pick_cands_pairrow r h hnr hnh hrne hhne' hhne]
      simp only [_select_best_reference, bestByScore]
      have hng : ¬(5 > _score_reference (pystrip (upperStr platform)) r) := by omega
      rw [h5, if_neg hng]
      rw [if_neg (by rw [hhr]; exact Bool.false_ne_true)]
      exact hcr

/-- Witness for C2's ordered clause: the md5-shaped string against the
TikTok invoice number of the spec's scenario 5, in both orders. -/
theorem c2_hash_never_selected_witness :
    (_is_probably_hash "a1b2c3d4e5f6a1b2c3d4e5f6a1b2c3d4" = true
      ∧ _is_probably_hash "TTSTH20250008665805" = false
      ∧ _normalize_reference_core (.vstr "TTSTH20250008665805") = "TTSTH20250008665805")
    ∧ _pick_best_reference "TIKTOK" ""
        [("G_invoice_no", .vstr "a1b2c3d4e5f6a1b2c3d4e5f6a1b2c3d4"),
         ("C_reference", .vstr "TTSTH20250008665805")] "" = "TTSTH20250008665805"
    ∧ _pick_best_reference "TIKTOK" ""
        [("G_invoice_no", .vstr "TTSTH20250008665805"),
         ("C_reference", .vstr "a1b2c3d4e5f6a1b2c3d4e5f6a1b2c3d4")] "" = "TTSTH20250008665805" := by
  have h := c2_hash_never_selected.2 "TIKTOK" "a1b2c3d4e5f6a1b2c3d4e5f6a1b2c3d4"
    "TTSTH20250008665805" (by decide) (by decide) (by decide) (by decide)
    (by with_unfolding_all rfl) (by with_unfolding_all rfl)
  exact ⟨⟨by decide, by decide, by with_unfolding_all rfl⟩, h.1, h.2⟩

/-- C7. Counterexample: reference normalization, and hence the selected
reference, is not idempotent. A filename-shaped value with stacked
extensions loses one extension pair per run (`_strip_ext` fires once
before and once after the noise pass), so re-running the pipeline on its
own output changes the result again. -/
theorem c7_reference_idempotent_counterexample :
    _pick_best_reference "SHOPEE" "" [("G_invoice_no", .vstr "A.pdf.pdf.pdf")] "" = "A.pdf"
    ∧ _pick_best_reference "SHOPEE" ""
        [("C_reference", .vstr "A.pdf"), ("G_invoice_no", .vstr "A.pdf")] "" = "A"
    ∧ ("A.pdf" : String) ≠ "A"
    ∧ _normalize_reference_core (.vstr (_normalize_reference_core (.vstr "A.pdf.pdf.pdf")))
        ≠ _normalize_reference_core (.vstr "A.pdf.pdf.pdf") := by
  refine ⟨by with_unfolding_all rfl, by with_unfolding_all rfl, by decide, ?_⟩
  rw [show _normalize_reference_core (.vstr "A.pdf.pdf.pdf") = "A.pdf" from by with_unfolding_all rfl]
  rw [show _normalize_reference_core (.vstr "A.pdf") = "A" from by with_unfolding_all rfl]
  decide

/-- C7 amended. On inputs already in normal form the pipeline is stable:
if a reference string is a fixed point of `_normalize_reference_core`,
then running `_pick_best_reference` over a row carrying it in both
reference fields returns exactly that string. -/
theorem c7_reference_idempotent_amended (platform r : String)
    (hr : _normalize_reference_core (.vstr r) = r) :
    _pick_best_reference platform ""
      [("C_reference", .vstr r), ("G_invoice_no", .vstr r)] "" = r := by
  have hst : pystrip r = r := by rw [← hr]; exact pystrip_normalize _
  have hcp : compactStr r = r := by rw [← hr]; exact compact_normalize _
  by_cases hr0 : r = ""
  · subst hr0
    with_unfolding_all rfl
  · have hcands : _pick_candidates ""
        [("C_reference", .vstr r), ("G_invoice_no", .vstr r)] "" = [r] := by
      simp only [_pick_candidates]
      rw [show rgetD [("C_reference", PyVal.vstr r), ("G_invoice_no", PyVal.vstr r)]
            "C_reference" (.vstr "") = .vstr r from rfl,
        show rgetD [("C_reference", PyVal.vstr r), ("G_invoice_no", PyVal.vstr r)]
            "G_invoice_no" (.vstr "") = .vstr r from rfl,
        hr, if_pos hr0,
        show _extract_reference_candidates_from_text "" = [] from rfl,
        if_neg (by simp : ¬(("" : String) ≠ ""))]
      show dedupKeepAux [] [pystrip r, pystrip r] = [r]
      rw [hst]
      exact dedupKeep_two_same r hr0
    simp only [_pick_best_reference]
    rw [hcands]
    simp only [_select_best_reference, bestByScore]
    by_cases hh : _is_probably_hash r = true
    · rw [if_pos hh]
      cases hf : List.find? (fun x => x ≠ "" && !(_is_probably_hash x)) [r] with
      | some y =>
        have hymem : y ∈ [r] := List.mem_of_find?_eq_some hf
        have hyr : y = r := by simpa using hymem
        show compactStr y = r
        rw [hyr]
        exact hcp
      | none =>
        show compactStr r = r
        exact hcp
    · rw [if_neg hh]
      exact hcp

/-- Witness for the amended C7 at the TikTok invoice number of
scenario 5, which is a normal-form reference. -/
theorem c7_reference_idempotent_amended_witness :
    _normalize_reference_core (.vstr "TTSTH20250008665805") = "TTSTH20250008665805"
    ∧ _pick_best_reference "TIKTOK"
        "" [("C_reference", .vstr "TTSTH20250008665805"),
            ("G_invoice_no", .vstr "TTSTH20250008665805")] "" = "TTSTH20250008665805" := by
  have hn : _normalize_reference_core (.vstr "TTSTH20250008665805") = "TTSTH20250008665805" := by
    with_unfolding_all rfl
  exact ⟨hn, c7_reference_idempotent_amended "TIKTOK" "TTSTH20250008665805" hn⟩

theorem rget?_ite (c : Prop) [Decidable c] (r1 r2 : Row) (k : String) :
    rget? (if c then r1 else r2) k = if c then rget? r1 k else rget? r2 k :=
  apply_ite (fun r => rget? r k) c r1 r2

theorem wht_detect_doc_date (env : Env) (row : Row) (cfg : Cfg) (text : String) :
    rget? (_wht_detect_calc env row cfg text).1 "B_doc_date" = rget? row "B_doc_date" := by
  simp only [_wht_detect_calc]
  simp [rget?_ite, rget?_rset, apply_ite Prod.fst, apply_ite (fun r => rget? r "B_doc_date")]

theorem wht_policy_doc_date (env : Env) (row : Row) (cfg : Cfg) (text : String) :
    rget? (_apply_wht_policy env row cfg text) "B_doc_date" = rget? row "B_doc_date" := by
  simp only [_apply_wht_policy]
  simp [rget?_ite, rget?_rset, wht_detect_doc_date]

theorem enforce_platform_doc_date (row : Row) (p : String) :
    rget? (_enforce_platform_rules row p) "B_doc_date" = rget? row "B_doc_date" := by
  simp only [_enforce_platform_rules]
  simp [rget?_ite, rget?_rset]

theorem finalizeTail_doc_date (env : Env) (row : Row)
    (platform text filename client_tax_id : String) (cfg : Cfg) :
    rget? (finalizeTail env row platform text filename client_tax_id cfg) "B_doc_date"
      = rget? row "B_doc_date" := by
  simp only [finalizeTail]
  rw [wht_policy_doc_date]
  simp [rget?_ite, rget?_rset, rget?_rsetdefault_ne, enforce_platform_doc_date]

theorem finalize_get_doc_date (env : Env) (rowIn : RowInput)
    (platform text filename client_tax_id : String) (cfg : Cfg) :
    rget? (finalize_row env rowIn platform text filename client_tax_id cfg) "B_doc_date"
      = some (rgetD (rowAfterDate rowIn text) "B_doc_date" (.vstr "")) := by
  unfold finalize_row lock_peak_columns
  rw [show _sanitize_incoming_row
        (.dict (finalizePre env rowIn platform text filename client_tax_id cfg))
      = finalizePre env rowIn platform text filename client_tax_id cfg from rfl]
  rw [lockRow_get_peak _ _ (by decide)]
  unfold finalizePre rgetD
  rw [finalizeTail_doc_date]

/-- C9. Two-run property: for a row whose document-date field is blank,
`finalize_row` writes the same `B_doc_date` value for any two source
filenames, and whenever the text yields a date that common value is
exactly the text-derived date — the document date depends only on the
document text, never on the filename. -/
theorem c9_doc_date_filename_independent
    (env : Env) (rowIn : RowInput) (platform text f1 f2 client_tax_id : String) (cfg : Cfg)
    (hblank : getStrOrStrip (_sanitize_incoming_row rowIn) "B_doc_date" = "") :
    rget? (finalize_row env rowIn platform text f1 client_tax_id cfg) "B_doc_date"
      = rget? (finalize_row env rowIn platform text f2 client_tax_id cfg) "B_doc_date"
    ∧ (_extract_doc_date_from_text text ≠ "" →
        rget? (finalize_row env rowIn platform text f1 client_tax_id cfg) "B_doc_date"
          = some (.vstr (_extract_doc_date_from_text text))) := by
  constructor
  · rw [finalize_get_doc_date, finalize_get_doc_date]
  · intro hdd
    rw [finalize_get_doc_date]
    have hrow : rget? (rowAfterDate rowIn text) "B_doc_date"
        = some (.vstr (_extract_doc_date_from_text text)) := by
      simp only [rowAfterDate]
      rw [getStrOrStrip_rset_ne _ _ _ _ (by decide), hblank, if_pos rfl,
        if_pos hdd, rget?_rset_self]
    unfold rgetD
    rw [hrow]
    rfl

/-- Witness for C9: a row without a document date, a text carrying an
invoice date, and two different filenames. -/
theorem c9_doc_date_filename_independent_witness :
    getStrOrStrip (_sanitize_incoming_row (.dict [("L_description", .vstr "ads")]))
        "B_doc_date" = ""
    ∧ _extract_doc_date_from_text "Invoice Date: 2025-01-02" ≠ ""
    ∧ rget? (finalize_row (fun _ => none) (.dict [("L_description", .vstr "ads")])
          "SHOPEE" "Invoice Date: 2025-01-02" "a.pdf" "" []) "B_doc_date"
        = rget? (finalize_row (fun _ => none) (.dict [("L_description", .vstr "ads")])
          "SHOPEE" "Invoice Date: 2025-01-02" "b.pdf" "" []) "B_doc_date"
    ∧ rget? (finalize_row (fun _ => none) (.dict [("L_description", .vstr "ads")])
          "SHOPEE" "Invoice Date: 2025-01-02" "a.pdf" "" []) "B_doc_date"
        = some (.vstr (_extract_doc_date_from_text "Invoice Date: 2025-01-02")) := by
  have hdd : _extract_doc_date_from_text "Invoice Date: 2025-01-02" ≠ "" := by
    rw [show _extract_doc_date_from_text "Invoice Date: 2025-01-02" = "20250102"
        from by with_unfolding_all rfl]
    decide
  have h := c9_doc_date_filename_independent (fun _ => none)
    (.dict [("L_description", .vstr "ads")]) "SHOPEE" "Invoice Date: 2025-01-02"
    "a.pdf" "b.pdf" "" [] (by with_unfolding_all rfl)
  exact ⟨by with_unfolding_all rfl, hdd, h.1, h.2 hdd⟩
